import Mathlib

/-!
Shallow embedding of the Fyyur booking-directory application (`app.py`,
`config.py`, `migrations/versions/134b3aa16c35_added_child_table_genre.py`)
and proofs checking the natural-language specification against it.

Conventions of the embedding:
* Python `datetime` values are records of calendar fields compared
  lexicographically (which is how Python compares naive datetimes).
* Python `None` is `Option.none`; an ORM model instance is an association
  list from attribute name to `Option Value` (an attribute can exist and
  hold `None`, which is distinct from the attribute being absent —
  mirroring `hasattr` versus a null value).
* The relational store is an explicit `DB` record.  A handler is a function
  `DB → … → DB × Response`.  SQLAlchemy commit semantics are modelled
  transactionally: a commit that would violate a primary-key constraint of
  the schema (association tables `venue_genres`/`artist_genres`, the `Show`
  composite key) aborts the whole transaction, leaving the store unchanged
  and surfacing as an unhandled server error (the source catches nothing).
* `forms.py` is not part of the sources, so field validation is a black
  box: each POST handler takes the submitted form data together with the
  boolean outcome of `form.validate()`.
-/

namespace Fyyur

/-- Naive `datetime` value: calendar fields, no timezone. -/
structure PyDateTime where
  year : Nat
  month : Nat
  day : Nat
  hour : Nat
  minute : Nat
  second : Nat
deriving DecidableEq, Repr

/-- Python compares naive datetimes lexicographically by field. -/
def PyDateTime.lt (a b : PyDateTime) : Bool :=
  if a.year ≠ b.year then a.year < b.year
  else if a.month ≠ b.month then a.month < b.month
  else if a.day ≠ b.day then a.day < b.day
  else if a.hour ≠ b.hour then a.hour < b.hour
  else if a.minute ≠ b.minute then a.minute < b.minute
  else a.second < b.second

/-- A non-null Python attribute value as used by the form/model layer. -/
inductive Value where
  | str : String → Value
  | bool : Bool → Value
  | dt : PyDateTime → Value
deriving DecidableEq, Repr

/-- A model instance's attribute dictionary: attribute name ↦ value, where
the value itself may be Python `None`. -/
abbrev AttrMap := List (String × Option Value)

/-- `hasattr(model, k)`: the attribute exists (its value may still be None). -/
def hasattr (m : AttrMap) (k : String) : Bool :=
  (m.lookup k).isSome

/-- `setattr(model, k, v)`: replace the binding of `k` (or add it). -/
def setattr : AttrMap → String → Option Value → AttrMap
  | [], k, v => [(k, v)]
  | (k', v') :: m, k, v =>
    if k' = k then (k, v) :: m else (k', v') :: setattr m k v

/-- `app.py` `populate_model`: copy every submitted field that the model
already has and whose submitted value is not `None`. -/
def populate_model (data : List (String × Option Value)) (model : AttrMap) : AttrMap :=
  data.foldl (fun m kv => if hasattr m kv.1 ∧ kv.2 ≠ none then setattr m kv.1 kv.2 else m) model

/-- Python `str.title()` for ASCII text: a letter is uppercased when the
previous character is not a letter, lowercased otherwise. -/
def pyTitleGo : Bool → List Char → List Char
  | _, [] => []
  | prevCased, c :: cs =>
    if c.isAlpha then
      (if prevCased then c.toLower else c.toUpper) :: pyTitleGo true cs
    else
      c :: pyTitleGo false cs

/-- Python `str.title()`. -/
def pyTitle (s : String) : String :=
  ⟨pyTitleGo false s.data⟩

/-- Left-pad the decimal representation of `n` with zeros to width `w`. -/
def padZero (w : Nat) (n : Nat) : String :=
  ⟨List.replicate (w - (toString n).length) '0'⟩ ++ toString n

/-- One `strftime` directive of the directives the source uses. -/
def strftimeDirective (c : Char) (dt : PyDateTime) : List Char :=
  match c with
  | 'Y' => (padZero 4 dt.year).data
  | 'm' => (padZero 2 dt.month).data
  | 'd' => (padZero 2 dt.day).data
  | 'H' => (padZero 2 dt.hour).data
  | 'M' => (padZero 2 dt.minute).data
  | 'S' => (padZero 2 dt.second).data
  | c => ['%', c]

/-- `datetime.strftime`: interpret the format string over the value. -/
def strftimeRun (dt : PyDateTime) : List Char → List Char
  | [] => []
  | '%' :: c :: rest => strftimeDirective c dt ++ strftimeRun dt rest
  | c :: rest => c :: strftimeRun dt rest

/-- `show.start_time.strftime(fmt)`. -/
def pyStrftime (dt : PyDateTime) (fmt : String) : String :=
  ⟨strftimeRun dt fmt.data⟩

/-- A `Show` row as seen by the projection functions: its own columns plus
the eagerly-traversable fields of its related `venue` and `artist`
(nullable columns are `Option`). -/
structure ShowObj where
  venue_id : Nat
  artist_id : Nat
  start_time : PyDateTime
  venue_name : Option String
  venue_image_link : Option String
  artist_name : Option String
  artist_image_link : Option String
deriving DecidableEq, Repr

/-- Output of `get_shows`: the `past_shows` / `upcoming_shows` dictionary. -/
structure SplitShows where
  upcoming_shows : List ShowObj
  past_shows : List ShowObj
deriving DecidableEq, Repr

/-- `app.py` `get_shows`: one pass over the model's shows, appending to
`past_shows` when `datetime.today() > show.start_time` and to
`upcoming_shows` otherwise.  `now` stands for `datetime.today()`. -/
def get_shows (shows : List ShowObj) (now : PyDateTime) : SplitShows :=
  shows.foldl
    (fun data s =>
      if PyDateTime.lt s.start_time now then
        { data with past_shows := data.past_shows ++ [s] }
      else
        { data with upcoming_shows := data.upcoming_shows ++ [s] })
    ⟨[], []⟩

/-- The format string of the three show projections. -/
def showTimeFormat : String := "%Y-%m-%dT%H:%M:%S.000Z"

/-- Output record of `parse_show`. -/
structure ParsedShow where
  venue_id : Nat
  venue_name : Option String
  artist_id : Nat
  artist_name : Option String
  artist_image_link : Option String
  start_time : String
deriving DecidableEq, Repr

/-- `app.py` `parse_show`. -/
def parse_show (s : ShowObj) : ParsedShow :=
  { venue_id := s.venue_id
    venue_name := s.venue_name
    artist_id := s.artist_id
    artist_name := s.artist_name
    artist_image_link := s.artist_image_link
    start_time := pyStrftime s.start_time showTimeFormat }

/-- Output record of `parse_show_for_venue`. -/
structure VenueShowEntry where
  artist_id : Nat
  artist_name : Option String
  artist_image_link : Option String
  start_time : String
deriving DecidableEq, Repr

/-- `app.py` `parse_show_for_venue`. -/
def parse_show_for_venue (s : ShowObj) : VenueShowEntry :=
  { artist_id := s.artist_id
    artist_name := s.artist_name
    artist_image_link := s.artist_image_link
    start_time := pyStrftime s.start_time showTimeFormat }

/-- Output record of `parse_show_for_artist`. -/
structure ArtistShowEntry where
  venue_id : Nat
  venue_name : Option String
  venue_image_link : Option String
  start_time : String
deriving DecidableEq, Repr

/-- `app.py` `parse_show_for_artist`. -/
def parse_show_for_artist (s : ShowObj) : ArtistShowEntry :=
  { venue_id := s.venue_id
    venue_name := s.venue_name
    venue_image_link := s.venue_image_link
    start_time := pyStrftime s.start_time showTimeFormat }

/-! ## The relational store (schema of `app.py` + the migration) -/

/-- A `Genre` row: `id` primary key, `name` unique and non-null. -/
structure GenreRow where
  id : Nat
  name : String
deriving DecidableEq, Repr

/-- A `Venue` or `Artist` row: surrogate `id`, the column attributes as an
attribute dictionary, and the committed genre associations of the row (the
`venue_genres` / `artist_genres` rows carrying this entity's id, in
attachment order).  The association table's composite primary key is
enforced at commit time, not here. -/
structure EntityRow where
  id : Nat
  attrs : AttrMap
  genres : List Nat
deriving DecidableEq, Repr

/-- A `Show` row: composite primary key `(venue_id, artist_id)`. -/
structure ShowRow where
  venue_id : Nat
  artist_id : Nat
  start_time : PyDateTime
deriving DecidableEq, Repr

/-- The persistent store.  `nextVenueId`/`nextArtistId` model the serial
id sequences. -/
structure DB where
  venues : List EntityRow
  artists : List EntityRow
  genres : List GenreRow
  shows : List ShowRow
  nextVenueId : Nat
  nextArtistId : Nat
deriving DecidableEq, Repr

/-- Read a string-valued column of a row (`none` for NULL or absent). -/
def attrStr (r : EntityRow) (k : String) : Option String :=
  match r.attrs.lookup k with
  | some (some (.str s)) => some s
  | _ => none

/-- Read a boolean-valued column of a row. -/
def attrBool (r : EntityRow) (k : String) : Option Bool :=
  match r.attrs.lookup k with
  | some (some (.bool b)) => some b
  | _ => none

/-- SQL `column = literal` with a non-null string literal: NULL never
matches. -/
def colEqStr (r : EntityRow) (k : String) (s : String) : Bool :=
  attrStr r k = some s

/-- SQL `name ILIKE '%term%'` for a search term without SQL wildcard
characters: case-insensitive substring containment; a NULL column never
matches. -/
def sqlIlikeContains (nameCol : Option String) (term : String) : Bool :=
  match nameCol with
  | none => false
  | some s => decide ((term.data.map Char.toLower) <:+: (s.data.map Char.toLower))

/-- The attributes of a freshly constructed `Venue()` (all columns of the
`Venue` model, each initially `None`). -/
def newVenueAttrs : AttrMap :=
  [("name", none), ("city", none), ("state", none), ("address", none), ("phone", none),
   ("image_link", none), ("facebook_link", none), ("website_link", none),
   ("seeking_talent", none), ("seeking_description", none)]

/-- The attributes of a freshly constructed `Artist()`. -/
def newArtistAttrs : AttrMap :=
  [("name", none), ("city", none), ("state", none), ("phone", none),
   ("image_link", none), ("facebook_link", none), ("website_link", none),
   ("seeking_venue", none), ("seeking_description", none)]

/-- Column default applied at INSERT (`seeking_talent` / `seeking_venue`
default to false when still unset). -/
def applyInsertDefault (r : EntityRow) (k : String) : EntityRow :=
  if r.attrs.lookup k = some none then
    { r with attrs := setattr r.attrs k (some (.bool false)) }
  else r

/-- The genre-append loop of the write handlers followed by the commit of
the resulting association inserts.  Each submitted id is resolved with
`Genre.query.get` and appended without deduplication; at flush, an
unresolved id (a `None` append) or an association row that duplicates an
existing `(entity_id, genre_id)` pair — or another appended one — violates
the association table's composite primary key, and the transaction aborts
(`none`). -/
def attachGenres (genreTable : List GenreRow) (row : EntityRow) (gids : List Nat) : Option EntityRow :=
  let resolved := gids.map (fun gid => genreTable.find? (fun g => g.id = gid))
  if resolved.all (·.isSome) then
    let newIds := resolved.filterMap (fun g => g.map (·.id))
    if newIds.Nodup ∧ ∀ g ∈ newIds, g ∉ row.genres then
      some { row with genres := row.genres ++ newIds }
    else none
  else none

/-! ## Relationship traversal and entity projections -/

/-- `venue.artists`: the venue's `Show` rows joined with their artist
(the object graph the projections traverse). -/
def showObjsOfVenue (db : DB) (v : EntityRow) : List ShowObj :=
  (db.shows.filter (fun s => s.venue_id = v.id)).map (fun s =>
    let artist := db.artists.find? (fun a => a.id = s.artist_id)
    { venue_id := s.venue_id
      artist_id := s.artist_id
      start_time := s.start_time
      venue_name := attrStr v "name"
      venue_image_link := attrStr v "image_link"
      artist_name := artist.bind (attrStr · "name")
      artist_image_link := artist.bind (attrStr · "image_link") })

/-- `artist.venues`: the artist's `Show` rows joined with their venue. -/
def showObjsOfArtist (db : DB) (a : EntityRow) : List ShowObj :=
  (db.shows.filter (fun s => s.artist_id = a.id)).map (fun s =>
    let venue := db.venues.find? (fun v => v.id = s.venue_id)
    { venue_id := s.venue_id
      artist_id := s.artist_id
      start_time := s.start_time
      venue_name := venue.bind (attrStr · "name")
      venue_image_link := venue.bind (attrStr · "image_link")
      artist_name := attrStr a "name"
      artist_image_link := attrStr a "image_link" })

/-- Resolve an entity's committed genre associations to `Genre` rows
(the `venue.genres` / `artist.genres` relationship collection). -/
def genreRowsOf (db : DB) (gids : List Nat) : List GenreRow :=
  gids.filterMap (fun gid => db.genres.find? (fun g => g.id = gid))

/-- `app.py` `get_genre_names`. -/
def get_genre_names (genres : List GenreRow) : List String :=
  genres.map (·.name)

/-- Output record of `parse_venue` (its docstring's schema). -/
structure ParsedVenue where
  id : Nat
  name : Option String
  genres : List String
  address : Option String
  city : Option String
  state : Option String
  phone : Option String
  website : Option String
  facebook_link : Option String
  seeking_talent : Option Bool
  seeking_description : Option String
  image_link : Option String
  past_shows : List VenueShowEntry
  upcoming_shows : List VenueShowEntry
  past_shows_count : Nat
  upcoming_shows_count : Nat
deriving DecidableEq, Repr

/-- `app.py` `parse_venue`. -/
def parse_venue (db : DB) (now : PyDateTime) (venue : EntityRow) : ParsedVenue :=
  let shows := get_shows (showObjsOfVenue db venue) now
  let past_shows := shows.past_shows.map parse_show_for_venue
  let upcoming_shows := shows.upcoming_shows.map parse_show_for_venue
  { id := venue.id
    name := attrStr venue "name"
    genres := get_genre_names (genreRowsOf db venue.genres)
    address := attrStr venue "address"
    city := attrStr venue "city"
    state := attrStr venue "state"
    phone := attrStr venue "phone"
    website := attrStr venue "website_link"
    facebook_link := attrStr venue "facebook_link"
    seeking_talent := attrBool venue "seeking_talent"
    seeking_description := attrStr venue "seeking_description"
    image_link := attrStr venue "image_link"
    past_shows := past_shows
    upcoming_shows := upcoming_shows
    past_shows_count := past_shows.length
    upcoming_shows_count := upcoming_shows.length }

/-- Output record of `parse_artist`. -/
structure ParsedArtist where
  id : Nat
  name : Option String
  genres : List String
  city : Option String
  state : Option String
  phone : Option String
  website : Option String
  facebook_link : Option String
  seeking_venue : Option Bool
  seeking_description : Option String
  image_link : Option String
  past_shows : List ArtistShowEntry
  upcoming_shows : List ArtistShowEntry
  past_shows_count : Nat
  upcoming_shows_count : Nat
deriving DecidableEq, Repr

/-- `app.py` `parse_artist`. -/
def parse_artist (db : DB) (now : PyDateTime) (artist : EntityRow) : ParsedArtist :=
  let shows := get_shows (showObjsOfArtist db artist) now
  let past_shows := shows.past_shows.map parse_show_for_artist
  let upcoming_shows := shows.upcoming_shows.map parse_show_for_artist
  { id := artist.id
    name := attrStr artist "name"
    genres := get_genre_names (genreRowsOf db artist.genres)
    city := attrStr artist "city"
    state := attrStr artist "state"
    phone := attrStr artist "phone"
    website := attrStr artist "website_link"
    facebook_link := attrStr artist "facebook_link"
    seeking_venue := attrBool artist "seeking_venue"
    seeking_description := attrStr artist "seeking_description"
    image_link := attrStr artist "image_link"
    past_shows := past_shows
    upcoming_shows := upcoming_shows
    past_shows_count := past_shows.length
    upcoming_shows_count := upcoming_shows.length }

/-! ## Forms and responses

`forms.py` is not among the sources; the form classes are modelled from
their use in `app.py` and the spec's data model: the fields the handlers
touch directly (`name`, `city`, `state`, `genres`) are explicit, the
remaining submitted fields are an opaque dictionary `rest`, and the
outcome of `form.validate()` is an input of each POST handler. -/

/-- Submitted `VenueForm` data (also used for `ArtistForm`, whose handler
simply ignores the `address`-style extras inside `rest`). -/
structure VenueForm where
  name : String
  city : String
  state : String
  genres : List Nat
  rest : List (String × Option Value)
deriving DecidableEq, Repr

/-- `ArtistForm` has the same shape as `VenueForm` (no `address` field;
whatever else it carries lives in `rest`). -/
structure ArtistForm where
  name : String
  city : String
  state : String
  genres : List Nat
  rest : List (String × Option Value)
deriving DecidableEq, Repr

/-- Submitted `ShowForm` data. -/
structure ShowForm where
  venue_id : Nat
  artist_id : Nat
  start_time : PyDateTime
deriving DecidableEq, Repr

/-- `form.data` with `genres` already popped (`data.pop('genres')`):
the dictionary handed to `populate_model`. -/
def VenueForm.dataDict (f : VenueForm) : List (String × Option Value) :=
  ("name", some (.str f.name)) :: ("city", some (.str f.city)) ::
    ("state", some (.str f.state)) :: f.rest

/-- `form.data` with `genres` popped, artist version. -/
def ArtistForm.dataDict (f : ArtistForm) : List (String × Option Value) :=
  ("name", some (.str f.name)) :: ("city", some (.str f.city)) ::
    ("state", some (.str f.state)) :: f.rest

/-- Well-formedness of the submitted dictionary: it is a Python dict, so
its keys are distinct, and the explicit fields do not reappear in `rest`. -/
def VenueForm.wfForm (f : VenueForm) : Prop :=
  ((f.dataDict).map Prod.fst).Nodup

/-- Dict well-formedness, artist version. -/
def ArtistForm.wfForm (f : ArtistForm) : Prop :=
  ((f.dataDict).map Prod.fst).Nodup

/-- Search response: `{count, data}`. -/
structure SummaryEntry where
  id : Nat
  name : Option String
  num_upcoming_shows : Nat
deriving DecidableEq, Repr

/-- `{'count': …, 'data': …}` of the search handlers. -/
structure SearchResponse where
  count : Nat
  data : List SummaryEntry
deriving DecidableEq, Repr

/-- One `{city, state, venues}` group of the `/venues` page. -/
structure VenueGroup where
  city : Option String
  state : Option String
  venues : List SummaryEntry
deriving DecidableEq, Repr

/-- What a handler hands to the presentation layer: which template is
rendered with which data, a redirect, an `abort(404)` page, or an
unhandled exception surfacing as the 500 page. -/
inductive Response where
  | home (flash : Option String)
  | venueFormPage (f : VenueForm) (flash : Option String)
  | artistFormPage (f : ArtistForm) (flash : Option String)
  | showFormPage (f : ShowForm) (flash : Option String)
  | venueDetail (data : ParsedVenue)
  | artistDetail (data : ParsedArtist)
  | editVenueFormPage (data : ParsedVenue)
  | editArtistFormPage (data : ParsedArtist)
  | venuesPage (areas : List VenueGroup)
  | searchPage (results : SearchResponse) (search_term : String)
  | redirectVenue (venue_id : Nat) (flash : Option String)
  | redirectArtist (artist_id : Nat) (flash : Option String)
  | redirectIndex (flash : Option String)
  | abort (code : Nat)
  | serverError
deriving DecidableEq, Repr

/-! ## Request handlers -/

/-- The summary entry built inline by `venues` and `search_venues`. -/
def venueSummary (db : DB) (now : PyDateTime) (v : EntityRow) : SummaryEntry :=
  { id := v.id
    name := attrStr v "name"
    num_upcoming_shows := (get_shows (showObjsOfVenue db v) now).upcoming_shows.length }

/-- The inner for-else of the `venues` route: append the entry to the
first group whose `state` and `city` both match, else open a new group at
the end. -/
def addVenueToGroups : List VenueGroup → Option String → Option String → SummaryEntry → List VenueGroup
  | [], city, state, e => [⟨city, state, [e]⟩]
  | g :: gs, city, state, e =>
    if g.state = state ∧ g.city = city then
      { g with venues := g.venues ++ [e] } :: gs
    else
      g :: addVenueToGroups gs city state e

/-- `app.py` route `venues` (GET `/venues`): group all venues by
city/state with a first-match linear scan. -/
def venues (db : DB) (now : PyDateTime) : DB × Response :=
  (db, .venuesPage (db.venues.foldl
    (fun data v => addVenueToGroups data (attrStr v "city") (attrStr v "state") (venueSummary db now v))
    []))

/-- `app.py` `search_venues` (POST `/venues/search`).  A missing
`search_term` field defaults to `''`. -/
def search_venues (db : DB) (search_term : String) (now : PyDateTime) : DB × Response :=
  let found := db.venues.filter (fun v => sqlIlikeContains (attrStr v "name") search_term)
  let data := found.map (venueSummary db now)
  (db, .searchPage { count := data.length, data := data } search_term)

/-- `app.py` `search_artists` (POST `/artists/search`). -/
def search_artists (db : DB) (search_term : String) (now : PyDateTime) : DB × Response :=
  let found := db.artists.filter (fun a => sqlIlikeContains (attrStr a "name") search_term)
  let data := found.map (fun a =>
    SummaryEntry.mk a.id (attrStr a "name")
      (get_shows (showObjsOfArtist db a) now).upcoming_shows.length)
  (db, .searchPage { count := data.length, data := data } search_term)

/-- `app.py` `show_venue` (GET `/venues/<id>`): 404 when the id misses. -/
def show_venue (db : DB) (venue_id : Nat) (now : PyDateTime) : DB × Response :=
  match db.venues.find? (fun v => v.id = venue_id) with
  | none => (db, .abort 404)
  | some venue => (db, .venueDetail (parse_venue db now venue))

/-- `app.py` `show_artist` (GET `/artists/<id>`). -/
def show_artist (db : DB) (artist_id : Nat) (now : PyDateTime) : DB × Response :=
  match db.artists.find? (fun a => a.id = artist_id) with
  | none => (db, .abort 404)
  | some artist => (db, .artistDetail (parse_artist db now artist))

/-- `app.py` `edit_venue` (GET `/venues/<id>/edit`). -/
def edit_venue (db : DB) (venue_id : Nat) (now : PyDateTime) : DB × Response :=
  match db.venues.find? (fun v => v.id = venue_id) with
  | none => (db, .abort 404)
  | some venue => (db, .editVenueFormPage (parse_venue db now venue))

/-- `app.py` `edit_artist` (GET `/artists/<id>/edit`). -/
def edit_artist (db : DB) (artist_id : Nat) (now : PyDateTime) : DB × Response :=
  match db.artists.find? (fun a => a.id = artist_id) with
  | none => (db, .abort 404)
  | some artist => (db, .editArtistFormPage (parse_artist db now artist))

/-- `app.py` `create_venue_submission` (POST `/venues/create`): title-case
`name` and `city`, validate, look the natural key up, update the found row
or insert a fresh one, append genres, commit. -/
def create_venue_submission (db : DB) (form : VenueForm) (valid : Bool) : DB × Response :=
  let f := { form with name := pyTitle form.name, city := pyTitle form.city }
  if valid then
    let data := f.dataDict
    match db.venues.find? (fun v =>
      colEqStr v "name" f.name && colEqStr v "city" f.city && colEqStr v "state" f.state) with
    | some venue =>
      match attachGenres db.genres { venue with attrs := populate_model data venue.attrs } f.genres with
      | some venue' =>
        ({ db with venues := db.venues.map (fun v => if v.id = venue.id then venue' else v) },
         .home (some ("Venue " ++ f.name ++ " was successfully listed!")))
      | none => (db, .serverError)
    | none =>
      match attachGenres db.genres
          { id := db.nextVenueId, attrs := populate_model data newVenueAttrs, genres := [] } f.genres with
      | some venue' =>
        ({ db with
            venues := db.venues ++ [applyInsertDefault venue' "seeking_talent"]
            nextVenueId := db.nextVenueId + 1 },
         .home (some ("Venue " ++ f.name ++ " was successfully listed!")))
      | none => (db, .serverError)
  else
    (db, .venueFormPage f (some ("An error occurred. Venue " ++ f.name ++ " could not be listed.")))

/-- `app.py` `create_artist_submission` (POST `/artists/create`):
title-case `name` only, natural key is `name` alone. -/
def create_artist_submission (db : DB) (form : ArtistForm) (valid : Bool) : DB × Response :=
  let f := { form with name := pyTitle form.name }
  if valid then
    let data := f.dataDict
    match db.artists.find? (fun a => colEqStr a "name" f.name) with
    | some artist =>
      match attachGenres db.genres { artist with attrs := populate_model data artist.attrs } f.genres with
      | some artist' =>
        ({ db with artists := db.artists.map (fun a => if a.id = artist.id then artist' else a) },
         .home (some ("Artist " ++ f.name ++ " was successfully listed!")))
      | none => (db, .serverError)
    | none =>
      match attachGenres db.genres
          { id := db.nextArtistId, attrs := populate_model data newArtistAttrs, genres := [] } f.genres with
      | some artist' =>
        ({ db with
            artists := db.artists ++ [applyInsertDefault artist' "seeking_venue"]
            nextArtistId := db.nextArtistId + 1 },
         .home (some ("Artist " ++ f.name ++ " was successfully listed!")))
      | none => (db, .serverError)
  else
    (db, .artistFormPage f (some ("An error occurred. Artist " ++ f.name ++ " could not be listed.")))

/-- `app.py` `edit_venue_submission` (POST `/venues/<id>/edit`).  On a
failed validation the source runs `abort(404)`.  On a valid form with a
missing id, `Venue.query.get` yields `None` and the subsequent attribute
access / `session.add(None)` raises, surfacing as a server error with
nothing committed. -/
def edit_venue_submission (db : DB) (venue_id : Nat) (form : VenueForm) (valid : Bool) : DB × Response :=
  if valid then
    match db.venues.find? (fun v => v.id = venue_id) with
    | none => (db, .serverError)
    | some venue =>
      match attachGenres db.genres
          { venue with attrs := populate_model form.dataDict venue.attrs } form.genres with
      | some venue' =>
        ({ db with venues := db.venues.map (fun v => if v.id = venue.id then venue' else v) },
         .redirectVenue venue_id (some ("Venue " ++ form.name ++ " updated successfully")))
      | none => (db, .serverError)
  else
    (db, .abort 404)

/-- `app.py` `edit_artist_submission` (POST `/artists/<id>/edit`). -/
def edit_artist_submission (db : DB) (artist_id : Nat) (form : ArtistForm) (valid : Bool) : DB × Response :=
  if valid then
    match db.artists.find? (fun a => a.id = artist_id) with
    | none => (db, .serverError)
    | some artist =>
      match attachGenres db.genres
          { artist with attrs := populate_model form.dataDict artist.attrs } form.genres with
      | some artist' =>
        ({ db with artists := db.artists.map (fun a => if a.id = artist.id then artist' else a) },
         .redirectArtist artist_id (some ("Artist " ++ form.name ++ " updated successfully")))
      | none => (db, .serverError)
  else
    (db, .abort 404)

/-- `app.py` `delete_venue` (DELETE `/venues/<id>`).  `Venue.query.get`
without a guard: a missing id makes `db.session.delete(None)` raise
(server error, nothing changed).  Deleting a venue that still has `Show`
rows violates the NOT NULL foreign key of `Show.venue_id` at flush.  The
success flash reads `venue.name` after the commit, so a NULL name raises
after the row is already gone. -/
def delete_venue (db : DB) (venue_id : Nat) : DB × Response :=
  match db.venues.find? (fun v => v.id = venue_id) with
  | none => (db, .serverError)
  | some venue =>
    if db.shows.any (fun s => s.venue_id = venue.id) then
      (db, .serverError)
    else
      let db' := { db with venues := db.venues.filter (fun v => v.id ≠ venue.id) }
      match attrStr venue "name" with
      | some n => (db', .redirectIndex (some ("Venue " ++ n ++ " successfully deleted")))
      | none => (db', .serverError)

/-- `app.py` `create_show_submission` (POST `/shows/create`): validate,
404 when either referent misses, otherwise insert the `Show` row — whose
composite primary key `(venue_id, artist_id)` makes a second show for the
same pair abort at commit. -/
def create_show_submission (db : DB) (form : ShowForm) (valid : Bool) : DB × Response :=
  if valid then
    match db.venues.find? (fun v => v.id = form.venue_id),
          db.artists.find? (fun a => a.id = form.artist_id) with
    | some venue, some artist =>
      if db.shows.any (fun s => s.venue_id = venue.id ∧ s.artist_id = artist.id) then
        (db, .serverError)
      else
        ({ db with shows := db.shows ++ [⟨venue.id, artist.id, form.start_time⟩] },
         .home (some "Show was successfully listed!"))
    | _, _ => (db, .abort 404)
  else
    (db, .showFormPage form (some "An error occurred. Show could not be listed."))

/-! ## Lemmas about attribute dictionaries and `populate_model` -/

theorem lookup_setattr_self (m : AttrMap) (k : String) (v : Option Value) :
    (setattr m k v).lookup k = some v := by
  induction m with
  | nil => simp [setattr]
  | cons kv m ih =>
    obtain ⟨k', v'⟩ := kv
    by_cases h : k' = k
    · subst h; simp [setattr]
    · have hb : (k == k') = false := by simpa using (Ne.symm h)
      simp [setattr, h, List.lookup_cons, hb, ih]

theorem lookup_setattr_ne (m : AttrMap) (k k' : String) (v : Option Value) (h : k' ≠ k) :
    (setattr m k v).lookup k' = m.lookup k' := by
  induction m with
  | nil => simp [setattr, List.lookup_cons, (by simpa using h : (k' == k) = false)]
  | cons kv m ih =>
    obtain ⟨k0, v0⟩ := kv
    by_cases h0 : k0 = k
    · subst h0
      have hb : (k' == k0) = false := by simpa using h
      simp [setattr, List.lookup_cons, hb]
    · simp [setattr, h0, List.lookup_cons, ih]

theorem populate_model_nil (m : AttrMap) : populate_model [] m = m := rfl

theorem populate_model_cons (k : String) (v : Option Value)
    (rest : List (String × Option Value)) (m : AttrMap) :
    populate_model ((k, v) :: rest) m =
      populate_model rest (if hasattr m k ∧ v ≠ none then setattr m k v else m) := rfl

theorem lookup_populate_of_not_mem (data : List (String × Option Value)) (m : AttrMap)
    (k : String) (h : k ∉ data.map Prod.fst) :
    (populate_model data m).lookup k = m.lookup k := by
  induction data generalizing m with
  | nil => rfl
  | cons kv rest ih =>
    obtain ⟨k0, v0⟩ := kv
    have hk0 : k ≠ k0 := by
      intro hEq; exact h (by simp [hEq])
    have hrest : k ∉ rest.map Prod.fst := by
      intro hMem; exact h (by simp [hMem])
    rw [populate_model_cons, ih _ hrest]
    by_cases hg : hasattr m k0 ∧ v0 ≠ none
    · rw [if_pos hg, lookup_setattr_ne _ _ _ _ hk0]
    · rw [if_neg hg]

/-- General lookup characterization of `populate_model` over a dictionary
with distinct keys. -/
theorem populate_model_lookup_eq (data : List (String × Option Value))
    (model : AttrMap) (k : String) (hnd : (data.map Prod.fst).Nodup) :
    (populate_model data model).lookup k =
      match model.lookup k, data.lookup k with
      | none, _ => none
      | some _, some (some v) => some (some v)
      | some old, _ => some old := by
  induction data generalizing model with
  | nil =>
    cases h : model.lookup k <;> simp [populate_model_nil, h]
  | cons kv rest ih =>
    obtain ⟨k0, v0⟩ := kv
    have hnd' : (rest.map Prod.fst).Nodup := (List.nodup_cons.mp hnd).2
    have hk0rest : k0 ∉ rest.map Prod.fst := (List.nodup_cons.mp hnd).1
    rw [populate_model_cons]
    by_cases hk : k = k0
    · subst hk
      have hdata : List.lookup k ((k, v0) :: rest) = some v0 := List.lookup_cons_self
      rw [hdata, lookup_populate_of_not_mem _ _ _ hk0rest]
      cases hm : model.lookup k with
      | none =>
        have : hasattr model k = false := by simp [hasattr, hm]
        simp [this, hm]
      | some old =>
        have hhas : hasattr model k := by simp [hasattr, hm]
        cases v0 with
        | none => simp [hhas, hm]
        | some v => simp [hhas, lookup_setattr_self, hm]
    · have hb : (k == k0) = false := by simpa using hk
      have hdata : List.lookup k ((k0, v0) :: rest) = List.lookup k rest := by
        simp [List.lookup_cons, hb]
      rw [hdata]
      by_cases hg : hasattr model k0 ∧ v0 ≠ none
      · rw [if_pos hg, ih _ hnd']
        rw [lookup_setattr_ne _ _ _ _ hk]
      · rw [if_neg hg, ih _ hnd']

/-- C7: `populate_model` overwrites exactly the attributes that exist on
the model and were submitted non-null; every attribute absent from the
submission or submitted as `None` keeps its previous value (and attributes
the model does not have stay absent). -/
theorem populate_model_overwrites_exactly_nonnull (data : List (String × Option Value))
    (model : AttrMap) (k : String) (hnd : (data.map Prod.fst).Nodup) :
    (populate_model data model).lookup k =
      match model.lookup k, data.lookup k with
      | none, _ => none
      | some _, some (some v) => some (some v)
      | some old, _ => some old :=
  populate_model_lookup_eq data model k hnd

/-- C7 witness: a concrete dictionary applied to a concrete model —
`phone` (non-null) is overwritten, `city` (submitted as None) keeps its
old value, `bogus` (absent on the model) is not created. -/
theorem populate_model_overwrites_exactly_nonnull_applied :
    (populate_model
        [("phone", some (.str "123")), ("city", none), ("bogus", some (.str "x"))]
        [("phone", some (.str "000")), ("city", some (.str "Austin"))]).lookup "phone"
      = some (some (.str "123")) := by
  have h := populate_model_overwrites_exactly_nonnull
    [("phone", some (.str "123")), ("city", none), ("bogus", some (.str "x"))]
    [("phone", some (.str "000")), ("city", some (.str "Austin"))]
    "phone" (by decide)
  simpa using h

/-! ## Lemmas about `get_shows` -/

theorem PyDateTime.lt_irrefl (a : PyDateTime) : PyDateTime.lt a a = false := by
  simp [PyDateTime.lt]

theorem get_shows_eq_filter (shows : List ShowObj) (now : PyDateTime) :
    get_shows shows now =
      ⟨shows.filter (fun s => !PyDateTime.lt s.start_time now),
       shows.filter (fun s => PyDateTime.lt s.start_time now)⟩ := by
  have go : ∀ (l : List ShowObj) (a b : List ShowObj),
      l.foldl
        (fun (data : SplitShows) s =>
          if PyDateTime.lt s.start_time now then
            { data with past_shows := data.past_shows ++ [s] }
          else
            { data with upcoming_shows := data.upcoming_shows ++ [s] })
        ⟨a, b⟩ =
      (⟨a ++ l.filter (fun s => !PyDateTime.lt s.start_time now),
        b ++ l.filter (fun s => PyDateTime.lt s.start_time now)⟩ : SplitShows) := by
    intro l
    induction l with
    | nil => intro a b; simp
    | cons s rest ih =>
      intro a b
      by_cases h : PyDateTime.lt s.start_time now <;>
        simp [h, ih, List.filter_cons]
  simpa [get_shows] using go shows [] []

/-- C4: `get_shows` sends each show with `start_time < now` to
`past_shows` and each with `start_time ≥ now` (including one starting
exactly at `now`) to `upcoming_shows`; both lists preserve the input
order, and together they contain every input show exactly once. -/
theorem get_shows_partitions (shows : List ShowObj) (now : PyDateTime) :
    (get_shows shows now).past_shows
        = shows.filter (fun s => PyDateTime.lt s.start_time now) ∧
    (get_shows shows now).upcoming_shows
        = shows.filter (fun s => !PyDateTime.lt s.start_time now) ∧
    List.Perm ((get_shows shows now).past_shows ++ (get_shows shows now).upcoming_shows) shows ∧
    List.Sublist (get_shows shows now).past_shows shows ∧
    List.Sublist (get_shows shows now).upcoming_shows shows ∧
    (∀ s ∈ shows, PyDateTime.lt s.start_time now = true →
        s ∈ (get_shows shows now).past_shows) ∧
    (∀ s ∈ shows, PyDateTime.lt s.start_time now = false →
        s ∈ (get_shows shows now).upcoming_shows) ∧
    (∀ s ∈ shows, s.start_time = now → s ∈ (get_shows shows now).upcoming_shows) := by
  rw [get_shows_eq_filter]
  refine ⟨rfl, rfl, ?_, List.filter_sublist shows, List.filter_sublist shows, ?_, ?_, ?_⟩
  · exact List.filter_append_perm _ shows
  · intro s hs h
    simp [List.mem_filter, hs, h]
  · intro s hs h
    simp [List.mem_filter, hs, h]
  · intro s hs h
    have : PyDateTime.lt s.start_time now = false := by
      rw [h]; exact PyDateTime.lt_irrefl now
    simp [List.mem_filter, hs, this]

/-- C4 witness: two concrete shows, one strictly past and one starting
exactly at the query instant; the boundary show lands in
`upcoming_shows`. -/
theorem get_shows_partitions_applied :
    let now : PyDateTime := ⟨2022, 6, 4, 12, 0, 0⟩
    let sPast : ShowObj := ⟨1, 1, ⟨2022, 6, 4, 11, 59, 59⟩, none, none, none, none⟩
    let sNow : ShowObj := ⟨1, 2, ⟨2022, 6, 4, 12, 0, 0⟩, none, none, none, none⟩
    sNow ∈ (get_shows [sPast, sNow] now).upcoming_shows ∧
      sPast ∈ (get_shows [sPast, sNow] now).past_shows := by
  intro now sPast sNow
  refine ⟨?_, ?_⟩
  · exact (get_shows_partitions [sPast, sNow] now).2.2.2.2.2.2.2 sNow (by simp) rfl
  · exact (get_shows_partitions [sPast, sNow] now).2.2.2.2.2.1 sPast (by simp) (by decide)

/-! ## The start_time format contract -/

/-- The spec's wording of the time format: the stored timestamp printed as
`YYYY-MM-DDTHH:MM:SS` (zero-padded decimal fields), to be compared with
what the source's `strftime` call produces. -/
def specIsoSeconds (dt : PyDateTime) : String :=
  padZero 4 dt.year ++ "-" ++ padZero 2 dt.month ++ "-" ++ padZero 2 dt.day ++ "T" ++
    padZero 2 dt.hour ++ ":" ++ padZero 2 dt.minute ++ ":" ++ padZero 2 dt.second

theorem pyStrftime_showTimeFormat (dt : PyDateTime) :
    pyStrftime dt showTimeFormat = specIsoSeconds dt ++ ".000Z" := by
  apply String.ext
  show strftimeRun dt showTimeFormat.data = _
  rw [show strftimeRun dt showTimeFormat.data =
    (padZero 4 dt.year).data ++ ('-' :: ((padZero 2 dt.month).data ++ ('-' :: ((padZero 2 dt.day).data ++
      ('T' :: ((padZero 2 dt.hour).data ++ (':' :: ((padZero 2 dt.minute).data ++
      (':' :: ((padZero 2 dt.second).data ++ ['.', '0', '0', '0', 'Z'])))))))))) from rfl]
  simp [specIsoSeconds, String.data_append, List.append_assoc]

/-- C8: every `start_time` string of the three show projections is the
stored timestamp's fields rendered as `YYYY-MM-DDTHH:MM:SS` followed by
the literal suffix `.000Z` — the stored value is used verbatim, with no
timezone conversion. -/
theorem show_projections_time_format (s : ShowObj) :
    (parse_show s).start_time = specIsoSeconds s.start_time ++ ".000Z" ∧
    (parse_show_for_venue s).start_time = specIsoSeconds s.start_time ++ ".000Z" ∧
    (parse_show_for_artist s).start_time = specIsoSeconds s.start_time ++ ".000Z" := by
  refine ⟨?_, ?_, ?_⟩ <;>
    simp [parse_show, parse_show_for_venue, parse_show_for_artist, pyStrftime_showTimeFormat]

/-! ## Concrete states and forms used to instantiate the theorems -/

/-- The genre vocabulary seeded by migration `134b3aa16c35` (serial ids). -/
def seedGenres : List GenreRow :=
  [⟨1, "Alternative"⟩, ⟨2, "Blues"⟩, ⟨3, "Classical"⟩, ⟨4, "Country"⟩, ⟨5, "Electronic"⟩,
   ⟨6, "Folk"⟩, ⟨7, "Funk"⟩, ⟨8, "Hip-Hop"⟩, ⟨9, "Heavy Metal"⟩, ⟨10, "Instrumental"⟩,
   ⟨11, "Jazz"⟩, ⟨12, "Musical Theatre"⟩, ⟨13, "Pop"⟩, ⟨14, "Punk"⟩, ⟨15, "R&B"⟩,
   ⟨16, "Reggae"⟩, ⟨17, "Rock n Roll"⟩, ⟨18, "Soul"⟩, ⟨19, "Other"⟩]

/-- The store right after the migrations: genres seeded, no entities. -/
def seededDB : DB := ⟨[], [], seedGenres, [], 1, 1⟩

/-- A concrete venue-form submission. -/
def sampleVenueForm : VenueForm :=
  { name := "jazz House", city := "austin", state := "TX", genres := [11], rest := [] }

/-- A concrete artist-form submission. -/
def sampleArtistForm : ArtistForm :=
  { name := "the blues band", city := "Reno", state := "NV", genres := [2], rest := [] }

/-- A concrete show-form submission. -/
def sampleShowForm : ShowForm :=
  { venue_id := 1, artist_id := 1, start_time := ⟨2022, 7, 1, 20, 0, 0⟩ }

/-! ## C1 — behaviour of the write handlers on validation failure -/

/-- C1 counterexample: the venue edit handler, given a submission that
fails validation, responds with the 404 page (`abort(404)`) — not with a
re-render of the submission form plus flash message as the claim states
for every write handler.  (Persistent state is indeed unchanged.) -/
theorem edit_venue_invalid_aborts_404 :
    edit_venue_submission seededDB 1 sampleVenueForm false = (seededDB, .abort 404) ∧
    (∀ (f : VenueForm) (msg : Option String),
      Response.abort 404 ≠ Response.venueFormPage f msg) ∧
    (∀ (f : ArtistForm) (msg : Option String),
      Response.abort 404 ≠ Response.artistFormPage f msg) := by
  refine ⟨rfl, ?_, ?_⟩ <;> · intro f msg h; cases h

/-- C1 amended: on validation failure the three create handlers re-render
their submission form with the submitted values (after the handler's own
title-case rewrites) and a flash error message, while the two edit
handlers abort with 404; in every case the store is unchanged. -/
theorem write_handlers_on_invalid_form (db : DB) (vf : VenueForm) (af : ArtistForm)
    (sf : ShowForm) (vid aid : Nat) :
    create_venue_submission db vf false =
      (db, .venueFormPage { vf with name := pyTitle vf.name, city := pyTitle vf.city }
        (some ("An error occurred. Venue " ++ pyTitle vf.name ++ " could not be listed."))) ∧
    create_artist_submission db af false =
      (db, .artistFormPage { af with name := pyTitle af.name }
        (some ("An error occurred. Artist " ++ pyTitle af.name ++ " could not be listed."))) ∧
    create_show_submission db sf false =
      (db, .showFormPage sf (some "An error occurred. Show could not be listed.")) ∧
    edit_venue_submission db vid vf false = (db, .abort 404) ∧
    edit_artist_submission db aid af false = (db, .abort 404) := by
  exact ⟨rfl, rfl, rfl, rfl, rfl⟩

/-! ## C2 — behaviour of the id-lookup handlers on a missing id -/

/-- C2 counterexample: `delete_venue` does not guard its lookup; with a
nonexistent id, `db.session.delete(None)` raises and the user gets the
500 page, not the 404 page the claim promises for every id-lookup
handler.  (The store is unchanged.) -/
theorem delete_venue_missing_id_severs :
    delete_venue seededDB 9999 = (seededDB, .serverError) ∧
    Response.serverError ≠ Response.abort 404 := by
  exact ⟨rfl, by intro h; cases h⟩

/-- C2 amended: with an id matching no stored row, the venue/artist detail
pages, the venue/artist edit forms (GET) and the show-create referent
lookups all answer with the 404 page; `delete_venue` and the two edit POST
handlers (on a form that validates) instead fail with an unhandled
exception, surfacing as the 500 page.  In every case the store is
unchanged. -/
theorem id_lookup_handlers_on_missing_id (db : DB) (vid aid : Nat) (now : PyDateTime)
    (vf : VenueForm) (af : ArtistForm) (sf : ShowForm)
    (hv : db.venues.find? (fun v => v.id = vid) = none)
    (ha : db.artists.find? (fun a => a.id = aid) = none) :
    show_venue db vid now = (db, .abort 404) ∧
    show_artist db aid now = (db, .abort 404) ∧
    edit_venue db vid now = (db, .abort 404) ∧
    edit_artist db aid now = (db, .abort 404) ∧
    (sf.venue_id = vid → create_show_submission db sf true = (db, .abort 404)) ∧
    delete_venue db vid = (db, .serverError) ∧
    edit_venue_submission db vid vf true = (db, .serverError) ∧
    edit_artist_submission db aid af true = (db, .serverError) := by
  refine ⟨?_, ?_, ?_, ?_, ?_, ?_, ?_, ?_⟩
  · simp [show_venue, hv]
  · simp [show_artist, ha]
  · simp [edit_venue, hv]
  · simp [edit_artist, ha]
  · intro hid
    subst hid
    rcases hart : db.artists.find? (fun a => a.id = sf.artist_id) with _ | a <;>
      simp [create_show_submission, hv, hart]
  · simp [delete_venue, hv]
  · simp [edit_venue_submission, hv]
  · simp [edit_artist_submission, ha]

/-- C2 amended, applied: the empty store with id 9999. -/
theorem id_lookup_handlers_on_missing_id_applied :
    show_venue seededDB 9999 ⟨2022, 6, 4, 12, 0, 0⟩ = (seededDB, .abort 404) := by
  exact (id_lookup_handlers_on_missing_id seededDB 9999 9999 ⟨2022, 6, 4, 12, 0, 0⟩
    sampleVenueForm sampleArtistForm sampleShowForm (by decide) (by decide)).1

/-! ## C10 — searching with an empty search term -/

theorem sqlIlikeContains_empty (n : Option String) :
    sqlIlikeContains n "" = n.isSome := by
  cases n with
  | none => rfl
  | some s => simp [sqlIlikeContains, List.nil_infix]

/-- A venue row whose nullable `name` column is NULL. -/
def nullNameVenue : EntityRow := ⟨1, newVenueAttrs, []⟩

/-- A store holding exactly one venue, with a NULL name. -/
def dbNullName : DB := ⟨[nullNameVenue], [], seedGenres, [], 2, 1⟩

/-- C10 counterexample: `Venue.name` is a nullable column and
`NULL ILIKE '%%'` does not match, so in a store whose single venue has a
NULL name the empty search returns count 0, not the total number of
venues (1). -/
theorem search_empty_term_null_name :
    search_venues dbNullName "" ⟨2022, 6, 4, 12, 0, 0⟩ =
      (dbNullName, .searchPage ⟨0, []⟩ "") ∧
    dbNullName.venues.length = 1 := by
  exact ⟨rfl, rfl⟩

/-- C10 amended: a venue or artist search with an empty (or defaulted)
`search_term` matches exactly the stored rows whose `name` is non-NULL —
the pattern `'%%'` matches every string but NULL never matches `ILIKE` —
and the reported count equals the number of such rows. -/
theorem search_empty_term_matches_nonnull_names (db : DB) (now : PyDateTime) :
    search_venues db "" now =
      (db, .searchPage
        ⟨(db.venues.filter (fun v => (attrStr v "name").isSome)).length,
         (db.venues.filter (fun v => (attrStr v "name").isSome)).map (venueSummary db now)⟩ "") ∧
    search_artists db "" now =
      (db, .searchPage
        ⟨(db.artists.filter (fun a => (attrStr a "name").isSome)).length,
         (db.artists.filter (fun a => (attrStr a "name").isSome)).map (fun a =>
            SummaryEntry.mk a.id (attrStr a "name")
              (get_shows (showObjsOfArtist db a) now).upcoming_shows.length)⟩ "") := by
  constructor
  · simp [search_venues, sqlIlikeContains_empty]
  · simp [search_artists, sqlIlikeContains_empty]

/-! ## Lemmas about `attachGenres` and row attributes -/

theorem filterMap_id_of_mem (f : Nat → Option Nat) (l : List Nat)
    (h : ∀ a ∈ l, f a = some a) : l.filterMap f = l := by
  induction l with
  | nil => rfl
  | cons a t ih =>
    rw [List.filterMap_cons, h a (by simp)]
    rw [ih (fun b hb => h b (by simp [hb]))]

/-- When every submitted genre id resolves, the ids are pairwise distinct
and none is already attached, the append-and-commit succeeds and simply
extends the row's genre list. -/
theorem attachGenres_resolves (gt : List GenreRow) (row : EntityRow) (gids : List Nat)
    (hres : ∀ g ∈ gids, gt.find? (fun x => x.id = g) ≠ none)
    (hnd : gids.Nodup) (hdis : ∀ g ∈ gids, g ∉ row.genres) :
    attachGenres gt row gids = some { row with genres := row.genres ++ gids } := by
  have hmap : ∀ g ∈ gids, ((gt.find? (fun x => x.id = g)).map (·.id)) = some g := by
    intro g hg
    rcases hfind : gt.find? (fun x => x.id = g) with _ | gr
    · exact absurd hfind (hres g hg)
    · have hid := @List.find?_some GenreRow (fun x => decide (x.id = g)) gr gt hfind
      simp only [decide_eq_true_eq] at hid
      rw [hfind]
      simp [hid]
  have h1 : (gids.map (fun gid => gt.find? (fun g => g.id = gid))).all (·.isSome) = true := by
    rw [List.all_eq_true]
    intro x hx
    rcases List.mem_map.mp hx with ⟨g, hg, rfl⟩
    rcases hfind : gt.find? (fun x => x.id = g) with _ | gr
    · exact absurd hfind (hres g hg)
    · rw [hfind]
      simp
  have h2 : (gids.map (fun gid => gt.find? (fun g => g.id = gid))).filterMap
      (fun g => g.map (·.id)) = gids := by
    rw [List.filterMap_map]
    exact filterMap_id_of_mem _ gids (fun a ha => hmap a ha)
  simp only [attachGenres, h1, h2, if_true]
  rw [if_pos ⟨hnd, hdis⟩]

/-- `attachGenres` never touches the attribute dictionary. -/
theorem attachGenres_attrs (gt : List GenreRow) (row row' : EntityRow) (gids : List Nat)
    (h : attachGenres gt row gids = some row') : row'.attrs = row.attrs := by
  unfold attachGenres at h
  by_cases h1 : ((gids.map (fun gid => gt.find? (fun g => g.id = gid))).all (·.isSome)) = true
  · simp only [h1, if_true] at h
    by_cases h2 : ((gids.map (fun gid => gt.find? (fun g => g.id = gid))).filterMap
        (fun g => g.map (·.id))).Nodup ∧
        ∀ g ∈ (gids.map (fun gid => gt.find? (fun g => g.id = gid))).filterMap
          (fun g => g.map (·.id)), g ∉ row.genres
    · rw [if_pos h2] at h
      cases h
      rfl
    · rw [if_neg h2] at h
      cases h
  · simp only [h1, if_false] at h
    cases h

theorem attrStr_applyInsertDefault_ne (r : EntityRow) (k k' : String) (h : k' ≠ k) :
    attrStr (applyInsertDefault r k) k' = attrStr r k' := by
  unfold applyInsertDefault attrStr
  by_cases hc : r.attrs.lookup k = some none
  · rw [if_pos hc]
    simp only [lookup_setattr_ne _ _ _ _ h]
  · rw [if_neg hc]

/-! ## C9 — title-casing on create -/

theorem lookup_dataDict_name (g : VenueForm) :
    g.dataDict.lookup "name" = some (some (.str g.name)) :=
  List.lookup_cons_self

theorem lookup_dataDict_city (g : VenueForm) :
    g.dataDict.lookup "city" = some (some (.str g.city)) := by
  simp [VenueForm.dataDict, List.lookup_cons]

theorem lookup_dataDict_name_artist (g : ArtistForm) :
    g.dataDict.lookup "name" = some (some (.str g.name)) :=
  List.lookup_cons_self

/-- Attribute lookups on a freshly populated venue row. -/
theorem populated_new_venue_lookups (g : VenueForm)
    (hwf : (g.dataDict.map Prod.fst).Nodup) :
    (populate_model g.dataDict newVenueAttrs).lookup "name" = some (some (.str g.name)) ∧
    (populate_model g.dataDict newVenueAttrs).lookup "city" = some (some (.str g.city)) := by
  constructor
  · rw [populate_model_lookup_eq _ _ _ hwf, lookup_dataDict_name]
    rfl
  · rw [populate_model_lookup_eq _ _ _ hwf, lookup_dataDict_city]
    rfl

theorem populated_new_artist_name (g : ArtistForm)
    (hwf : (g.dataDict.map Prod.fst).Nodup) :
    (populate_model g.dataDict newArtistAttrs).lookup "name" = some (some (.str g.name)) := by
  rw [populate_model_lookup_eq _ _ _ hwf, lookup_dataDict_name_artist]
  rfl

/-- C9: on venue creation the stored `name` and `city` are the title-cased
forms of the submitted values, and the natural-key uniqueness lookup is
performed over those title-cased values (the handler's branch is decided by
a lookup keyed on `pyTitle name`/`pyTitle city`); on artist creation the
same holds for `name`.  The spec's example evaluates as stated. -/
theorem create_submissions_store_titlecased (db : DB) (vf : VenueForm) (af : ArtistForm)
    (hwfv : (vf.dataDict.map Prod.fst).Nodup)
    (hwfa : (af.dataDict.map Prod.fst).Nodup)
    (hgv : vf.genres.Nodup)
    (hgv2 : ∀ g ∈ vf.genres, db.genres.find? (fun x => x.id = g) ≠ none)
    (hga : af.genres.Nodup)
    (hga2 : ∀ g ∈ af.genres, db.genres.find? (fun x => x.id = g) ≠ none) :
    (db.venues.find? (fun v => colEqStr v "name" (pyTitle vf.name) &&
        colEqStr v "city" (pyTitle vf.city) && colEqStr v "state" vf.state) = none →
      ∃ r, (create_venue_submission db vf true).1.venues = db.venues ++ [r] ∧
        attrStr r "name" = some (pyTitle vf.name) ∧
        attrStr r "city" = some (pyTitle vf.city)) ∧
    (db.venues.find? (fun v => colEqStr v "name" (pyTitle vf.name) &&
        colEqStr v "city" (pyTitle vf.city) && colEqStr v "state" vf.state) ≠ none →
      (create_venue_submission db vf true).1.venues.length = db.venues.length) ∧
    (db.artists.find? (fun a => colEqStr a "name" (pyTitle af.name)) = none →
      ∃ r, (create_artist_submission db af true).1.artists = db.artists ++ [r] ∧
        attrStr r "name" = some (pyTitle af.name)) ∧
    (db.artists.find? (fun a => colEqStr a "name" (pyTitle af.name)) ≠ none →
      (create_artist_submission db af true).1.artists.length = db.artists.length) ∧
    pyTitle "jazz House" = "Jazz House" ∧ pyTitle "austin" = "Austin" := by
  have hwfv' : ((({ vf with name := pyTitle vf.name, city := pyTitle vf.city } : VenueForm)).dataDict.map
      Prod.fst).Nodup := hwfv
  have hwfa' : ((({ af with name := pyTitle af.name } : ArtistForm)).dataDict.map Prod.fst).Nodup := hwfa
  refine ⟨?_, ?_, ?_, ?_, rfl, rfl⟩
  · intro hfresh
    have hatt := attachGenres_resolves db.genres
      ⟨db.nextVenueId, populate_model
        (VenueForm.dataDict { vf with name := pyTitle vf.name, city := pyTitle vf.city })
        newVenueAttrs, []⟩
      vf.genres hgv2 hgv (by simp)
    simp only [create_venue_submission, if_true, hfresh, hatt]
    refine ⟨_, rfl, ?_, ?_⟩
    · rw [attrStr_applyInsertDefault_ne _ _ _ (by decide)]
      unfold attrStr
      rw [(populated_new_venue_lookups _ hwfv').1]
    · rw [attrStr_applyInsertDefault_ne _ _ _ (by decide)]
      unfold attrStr
      rw [(populated_new_venue_lookups _ hwfv').2]
  · intro hne
    rcases hfound : db.venues.find? (fun v => colEqStr v "name" (pyTitle vf.name) &&
        colEqStr v "city" (pyTitle vf.city) && colEqStr v "state" vf.state) with _ | v
    · exact absurd hfound hne
    · rcases hatt : attachGenres db.genres
          { v with attrs := populate_model (VenueForm.dataDict
              { vf with name := pyTitle vf.name, city := pyTitle vf.city }) v.attrs }
          vf.genres with _ | v'
      · simp only [create_venue_submission, if_true, hfound, hatt]
      · simp only [create_venue_submission, if_true, hfound, hatt]
        simp
  · intro hfresh
    have hatt := attachGenres_resolves db.genres
      ⟨db.nextArtistId, populate_model
        (ArtistForm.dataDict { af with name := pyTitle af.name }) newArtistAttrs, []⟩
      af.genres hga2 hga (by simp)
    simp only [create_artist_submission, if_true, hfresh, hatt]
    refine ⟨_, rfl, ?_⟩
    rw [attrStr_applyInsertDefault_ne _ _ _ (by decide)]
    unfold attrStr
    rw [populated_new_artist_name _ hwfa']
  · intro hne
    rcases hfound : db.artists.find? (fun a => colEqStr a "name" (pyTitle af.name)) with _ | a
    · exact absurd hfound hne
    · rcases hatt : attachGenres db.genres
          { a with attrs := populate_model (ArtistForm.dataDict
              { af with name := pyTitle af.name }) a.attrs } af.genres with _ | a'
      · simp only [create_artist_submission, if_true, hfound, hatt]
      · simp only [create_artist_submission, if_true, hfound, hatt]
        simp

/-- C9 applied: creating "jazz House"/"austin" in the freshly migrated
store persists "Jazz House"/"Austin". -/
theorem create_submissions_store_titlecased_applied :
    ∃ r, (create_venue_submission seededDB sampleVenueForm true).1.venues = [] ++ [r] ∧
      attrStr r "name" = some "Jazz House" ∧ attrStr r "city" = some "Austin" := by
  have h := (create_submissions_store_titlecased seededDB sampleVenueForm sampleArtistForm
    (by decide) (by decide) (by decide) (by decide) (by decide) (by decide)).1 (by decide)
  simpa [seededDB] using h

/-! ## C5 — grouping venues by location -/

/-- A group's `(city, state)` pair. -/
def groupKey (g : VenueGroup) : Option String × Option String := (g.city, g.state)

/-- A venue row's `(city, state)` pair. -/
def venueLocKey (v : EntityRow) : Option String × Option String :=
  (attrStr v "city", attrStr v "state")

/-- Keys in order of first occurrence (the spec's wording of the group
order). -/
def firstOccur (l : List (Option String × Option String)) :
    List (Option String × Option String) :=
  l.foldl (fun acc k => if k ∈ acc then acc else acc ++ [k]) []

/-- First group with the given key. -/
def groupFind (gs : List VenueGroup) (k : Option String × Option String) : Option VenueGroup :=
  gs.find? (fun g => decide (groupKey g = k))

theorem addVenue_keys (acc : List VenueGroup) (c s : Option String) (e : SummaryEntry) :
    (addVenueToGroups acc c s e).map groupKey =
      if (c, s) ∈ acc.map groupKey then acc.map groupKey
      else acc.map groupKey ++ [(c, s)] := by
  induction acc with
  | nil => simp [addVenueToGroups, groupKey]
  | cons g gs ih =>
    by_cases hc : g.state = s ∧ g.city = c
    · obtain ⟨h1, h2⟩ := hc
      simp [addVenueToGroups, h1, h2, groupKey]
    · have hkey : groupKey g ≠ (c, s) := by
        simp only [groupKey, ne_eq, Prod.mk.injEq, not_and]
        intro hcity
        intro hstate
        exact hc ⟨hstate, hcity⟩
      simp only [addVenueToGroups, if_neg hc, List.map_cons, ih]
      by_cases hm : (c, s) ∈ gs.map groupKey
      · simp [hm, Ne.symm hkey]
      · simp [hm, Ne.symm hkey]

theorem groupFind_addVenue (acc : List VenueGroup) (c s : Option String) (e : SummaryEntry)
    (k : Option String × Option String) :
    groupFind (addVenueToGroups acc c s e) k =
      if k = (c, s) then
        some (match groupFind acc k with
              | some g0 => { g0 with venues := g0.venues ++ [e] }
              | none => ⟨c, s, [e]⟩)
      else groupFind acc k := by
  induction acc with
  | nil =>
    by_cases hk : k = (c, s)
    · subst hk
      simp [addVenueToGroups, groupFind, List.find?, groupKey]
    · simp [addVenueToGroups, groupFind, List.find?, groupKey, Ne.symm hk, hk]
  | cons g gs ih =>
    by_cases hc : g.state = s ∧ g.city = c
    · obtain ⟨h1, h2⟩ := hc
      have hgk : groupKey g = (c, s) := by simp [groupKey, h1, h2]
      by_cases hk : k = (c, s)
      · subst hk
        simp [addVenueToGroups, h1, h2, groupFind, List.find?, groupKey, hgk]
      · have hne : groupKey g ≠ k := by rw [hgk]; exact Ne.symm hk
        have hd : decide ((c, s) = k) = false := by simp [Ne.symm hk]
        simp only [addVenueToGroups, h1, h2, and_self, if_true, groupFind, List.find?,
          show groupKey { g with venues := g.venues ++ [e] } = (g.city, g.state) from rfl,
          show groupKey g = (g.city, g.state) from rfl] at *
        simp only [groupKey, hd, if_neg hk]
    · have hkey : groupKey g ≠ (c, s) := by
        simp only [groupKey, ne_eq, Prod.mk.injEq, not_and]
        intro hcity hstate
        exact hc ⟨hstate, hcity⟩
      by_cases hgk : groupKey g = k
      · have hk : k ≠ (c, s) := by rw [← hgk]; exact hkey
        simp [addVenueToGroups, if_neg hc, groupFind, List.find?, hgk, hk]
      · have hd : decide (groupKey g = k) = false := by simp [hgk]
        simp only [addVenueToGroups, if_neg hc]
        unfold groupFind at ih ⊢
        simp only [List.find?, hd]
        exact ih

theorem foldl_groups_find (entry : EntityRow → SummaryEntry) (l : List EntityRow) :
    ∀ (acc : List VenueGroup) (k : Option String × Option String),
    groupFind
      (l.foldl (fun data v =>
        addVenueToGroups data (attrStr v "city") (attrStr v "state") (entry v)) acc) k =
      match groupFind acc k, (l.filter (fun v => decide (venueLocKey v = k))).map entry with
      | none, [] => none
      | none, es => some ⟨k.1, k.2, es⟩
      | some g0, es => some { g0 with venues := g0.venues ++ es } := by
  induction l with
  | nil =>
    intro acc k
    rcases h : groupFind acc k with _ | g0 <;> simp [h]
  | cons v t ih =>
    intro acc k
    rw [List.foldl_cons, ih, groupFind_addVenue]
    by_cases hk : k = venueLocKey v
    · have hdk : decide (venueLocKey v = k) = true := by simp [hk]
      rw [if_pos (by simpa [venueLocKey] using hk), List.filter_cons, hdk]
      rcases h : groupFind acc k with _ | g0
      · subst hk
        simp [venueLocKey]
      · subst hk
        simp [List.append_assoc]
    · have hdk : decide (venueLocKey v = k) = false := by
        simp
        exact fun h => hk h.symm
      rw [if_neg (by simpa [venueLocKey] using hk), List.filter_cons, hdk]
      simp

theorem foldl_groups_keys (entry : EntityRow → SummaryEntry) (l : List EntityRow) :
    ∀ (acc : List VenueGroup),
    ((l.foldl (fun data v =>
        addVenueToGroups data (attrStr v "city") (attrStr v "state") (entry v)) acc).map
      groupKey) =
      (l.map venueLocKey).foldl (fun ks k => if k ∈ ks then ks else ks ++ [k])
        (acc.map groupKey) := by
  induction l with
  | nil => intro acc; rfl
  | cons v t ih =>
    intro acc
    rw [List.foldl_cons, ih, List.map_cons, List.foldl_cons, addVenue_keys]
    rfl

theorem firstOccur_step_nodup (ks : List (Option String × Option String))
    (k : Option String × Option String)
    (h : ks.Nodup) : (if k ∈ ks then ks else ks ++ [k]).Nodup := by
  by_cases hm : k ∈ ks
  · simpa [hm]
  · simp [hm, List.nodup_append, h]

theorem firstOccur_foldl_nodup (l : List (Option String × Option String)) :
    ∀ (ks : List (Option String × Option String)), ks.Nodup →
      (l.foldl (fun acc k => if k ∈ acc then acc else acc ++ [k]) ks).Nodup := by
  induction l with
  | nil => intro ks h; exact h
  | cons k t ih =>
    intro ks h
    rw [List.foldl_cons]
    exact ih _ (firstOccur_step_nodup ks k h)

theorem groupFind_self (gs : List VenueGroup) (g : VenueGroup)
    (hnd : (gs.map groupKey).Nodup) (hg : g ∈ gs) :
    groupFind gs (groupKey g) = some g := by
  induction gs with
  | nil => cases hg
  | cons g0 t ih =>
    rcases List.mem_cons.mp hg with rfl | hgt
    · simp [groupFind, List.find?]
    · have hne : groupKey g0 ≠ groupKey g := by
        intro hEq
        exact (List.nodup_cons.mp hnd).1 (hEq ▸ List.mem_map_of_mem groupKey hgt)
      have hd : decide (groupKey g0 = groupKey g) = false := by simp [hne]
      unfold groupFind
      simp only [List.find?, hd]
      exact ih (List.nodup_cons.mp hnd).2 hgt

/-- C5: the `/venues` page groups: the groups' `(city, state)` keys are
pairwise distinct and appear in first-occurrence order of the venues'
locations; each group holds exactly the summaries of the input venues
whose `(city, state)` matches its key, in input order; and every input
venue lands in exactly one group — the one matching its location. -/
theorem venues_groups_by_first_occurrence (db : DB) (now : PyDateTime)
    (groups : List VenueGroup) (h : venues db now = (db, .venuesPage groups)) :
    groups.map groupKey = firstOccur (db.venues.map venueLocKey) ∧
    (groups.map groupKey).Nodup ∧
    (∀ g ∈ groups, g.venues =
      (db.venues.filter (fun v => decide (venueLocKey v = groupKey g))).map
        (venueSummary db now)) ∧
    (∀ v ∈ db.venues, ∃! g, g ∈ groups ∧ groupKey g = venueLocKey v ∧
      venueSummary db now v ∈ g.venues) := by
  have hF : (db.venues.foldl (fun data v =>
      addVenueToGroups data (attrStr v "city") (attrStr v "state")
        (venueSummary db now v)) []) = groups := by
    have h2 := congrArg Prod.snd h
    simp only [venues] at h2
    exact Response.venuesPage.inj h2
  have hkeys : groups.map groupKey = firstOccur (db.venues.map venueLocKey) := by
    rw [← hF, foldl_groups_keys]
    simp [firstOccur]
  have hnd : (groups.map groupKey).Nodup := by
    rw [hkeys]
    exact firstOccur_foldl_nodup _ [] List.nodup_nil
  refine ⟨hkeys, hnd, ?_, ?_⟩
  · intro g hg
    have hfind := foldl_groups_find (venueSummary db now) db.venues [] (groupKey g)
    rw [hF, groupFind_self groups g hnd hg] at hfind
    rcases hes : (db.venues.filter
        (fun v => decide (venueLocKey v = groupKey g))).map (venueSummary db now) with _ | ⟨e, es⟩
    · rw [hes] at hfind
      simp [groupFind] at hfind
    · rw [hes] at hfind
      simp only [groupFind, List.find?] at hfind
      have : g = ⟨(groupKey g).1, (groupKey g).2, e :: es⟩ := by
        injection hfind
      rw [this]
  · intro v hv
    have hvf : v ∈ db.venues.filter (fun v' => decide (venueLocKey v' = venueLocKey v)) :=
      List.mem_filter.mpr ⟨hv, by simp⟩
    have hme : venueSummary db now v ∈ (db.venues.filter
        (fun v' => decide (venueLocKey v' = venueLocKey v))).map (venueSummary db now) :=
      List.mem_map_of_mem _ hvf
    have hfind := foldl_groups_find (venueSummary db now) db.venues [] (venueLocKey v)
    rw [hF] at hfind
    rcases hes : (db.venues.filter
        (fun v' => decide (venueLocKey v' = venueLocKey v))).map (venueSummary db now)
      with _ | ⟨e, es⟩
    · rw [hes] at hme
      cases hme
    · rw [hes] at hfind hme
      simp only [groupFind] at hfind
      refine ⟨⟨(venueLocKey v).1, (venueLocKey v).2, e :: es⟩, ⟨?_, ?_, ?_⟩, ?_⟩
      · exact List.mem_of_find?_eq_some hfind
      · simp [groupKey]
      · exact hme
      · rintro g' ⟨hg', hkg', hmem'⟩
        have h1 : groupFind groups (venueLocKey v) = some g' := by
          rw [← hkg']
          exact groupFind_self groups g' hnd hg'
        simp only [groupFind] at h1
        rw [h1] at hfind
        injection hfind

/-- C5 applied: three concrete venues, two sharing a location. -/
def venueRowA : EntityRow :=
  ⟨1, [("name", some (.str "A")), ("city", some (.str "Austin")), ("state", some (.str "TX"))], []⟩

/-- Second concrete venue (different location). -/
def venueRowB : EntityRow :=
  ⟨2, [("name", some (.str "B")), ("city", some (.str "Boston")), ("state", some (.str "MA"))], []⟩

/-- Third concrete venue (same location as the first). -/
def venueRowC : EntityRow :=
  ⟨3, [("name", some (.str "C")), ("city", some (.str "Austin")), ("state", some (.str "TX"))], []⟩

/-- A store with the three concrete venues. -/
def dbGroups : DB := ⟨[venueRowA, venueRowB, venueRowC], [], [], [], 4, 1⟩

/-- C5 witness: the grouping theorem applied to the concrete store. -/
theorem venues_groups_by_first_occurrence_applied :
    ∃ groups, venues dbGroups ⟨2022, 6, 4, 12, 0, 0⟩ = (dbGroups, .venuesPage groups) ∧
      groups.map groupKey = firstOccur (dbGroups.venues.map venueLocKey) :=
  ⟨_, rfl, (venues_groups_by_first_occurrence dbGroups ⟨2022, 6, 4, 12, 0, 0⟩ _ rfl).1⟩

/-! ## C6 — at most one association row per (entity, genre) pair -/

/-- Full description of a successful `attachGenres` commit. -/
theorem attachGenres_some_spec (gt : List GenreRow) (row row' : EntityRow) (gids : List Nat)
    (h : attachGenres gt row gids = some row') :
    row'.id = row.id ∧ row'.attrs = row.attrs ∧
    ∃ newIds, row'.genres = row.genres ++ newIds ∧ newIds.Nodup ∧
      ∀ g ∈ newIds, g ∉ row.genres := by
  unfold attachGenres at h
  by_cases h1 : ((gids.map (fun gid => gt.find? (fun g => g.id = gid))).all (·.isSome)) = true
  · simp only [h1, if_true] at h
    by_cases h2 : ((gids.map (fun gid => gt.find? (fun g => g.id = gid))).filterMap
        (fun g => g.map (·.id))).Nodup ∧
        ∀ g ∈ (gids.map (fun gid => gt.find? (fun g => g.id = gid))).filterMap
          (fun g => g.map (·.id)), g ∉ row.genres
    · rw [if_pos h2] at h
      cases h
      exact ⟨rfl, rfl, _, rfl, h2.1, h2.2⟩
    · rw [if_neg h2] at h
      cases h
  · simp only [h1, if_false] at h
    cases h

/-- A successful commit keeps the genre list duplicate-free. -/
theorem attachGenres_nodup (gt : List GenreRow) (row row' : EntityRow) (gids : List Nat)
    (h : attachGenres gt row gids = some row') (hrow : row.genres.Nodup) :
    row'.genres.Nodup := by
  obtain ⟨-, -, newIds, hg, hnd, hdis⟩ := attachGenres_some_spec gt row row' gids h
  rw [hg]
  exact hrow.append hnd (List.disjoint_right.mpr hdis)

theorem applyInsertDefault_id (r : EntityRow) (k : String) :
    (applyInsertDefault r k).id = r.id := by
  unfold applyInsertDefault
  split <;> rfl

theorem applyInsertDefault_genres (r : EntityRow) (k : String) :
    (applyInsertDefault r k).genres = r.genres := by
  unfold applyInsertDefault
  split <;> rfl

/-- One write request, as fed to `runOp`. -/
inductive Op where
  | createVenue (f : VenueForm) (valid : Bool)
  | createArtist (f : ArtistForm) (valid : Bool)
  | editVenue (vid : Nat) (f : VenueForm) (valid : Bool)
  | editArtist (aid : Nat) (f : ArtistForm) (valid : Bool)
  | deleteVenue (vid : Nat)
  | createShow (f : ShowForm) (valid : Bool)

/-- The store left behind by one request. -/
def runOp (db : DB) : Op → DB
  | .createVenue f valid => (create_venue_submission db f valid).1
  | .createArtist f valid => (create_artist_submission db f valid).1
  | .editVenue vid f valid => (edit_venue_submission db vid f valid).1
  | .editArtist aid f valid => (edit_artist_submission db aid f valid).1
  | .deleteVenue vid => (delete_venue db vid).1
  | .createShow f valid => (create_show_submission db f valid).1

/-- The store after a sequence of requests. -/
def runOps (db : DB) (ops : List Op) : DB :=
  ops.foldl runOp db

/-- The committed `venue_genres` association table. -/
def venueGenrePairs (db : DB) : List (Nat × Nat) :=
  db.venues.flatMap (fun v => v.genres.map (fun g => (v.id, g)))

/-- The committed `artist_genres` association table. -/
def artistGenrePairs (db : DB) : List (Nat × Nat) :=
  db.artists.flatMap (fun a => a.genres.map (fun g => (a.id, g)))

/-- Store well-formedness maintained by every handler: surrogate ids are
unique and below the sequence counter, and each row's committed genre
list is duplicate-free (the association-table primary key). -/
def Inv (db : DB) : Prop :=
  (db.venues.map EntityRow.id).Nodup ∧ (db.artists.map EntityRow.id).Nodup ∧
  (∀ v ∈ db.venues, v.genres.Nodup ∧ v.id < db.nextVenueId) ∧
  (∀ a ∈ db.artists, a.genres.Nodup ∧ a.id < db.nextArtistId)

instance (db : DB) : Decidable (Inv db) := by
  unfold Inv
  infer_instance

theorem inv_update_venues (db : DB) (v v' : EntityRow) (hInv : Inv db)
    (hid : v'.id = v.id) (hnd : v'.genres.Nodup) :
    Inv { db with venues := db.venues.map (fun w => if w.id = v.id then v' else w) } := by
  obtain ⟨h1, h2, h3, h4⟩ := hInv
  refine ⟨?_, h2, ?_, h4⟩
  · have heq : (db.venues.map (fun w => if w.id = v.id then v' else w)).map EntityRow.id
        = db.venues.map EntityRow.id := by
      rw [List.map_map]
      apply List.map_congr_left
      intro w hw
      by_cases hww : w.id = v.id
      · simp [Function.comp, hww, hid]
      · simp [Function.comp, hww]
    rw [show ({ db with venues := db.venues.map (fun w => if w.id = v.id then v' else w) } : DB).venues
      = db.venues.map (fun w => if w.id = v.id then v' else w) from rfl, heq]
    exact h1
  · intro w hw
    rcases List.mem_map.mp hw with ⟨w0, hw0, rfl⟩
    by_cases hww : w0.id = v.id
    · simp only [hww, if_true]
      exact ⟨hnd, by rw [hid, ← hww]; exact (h3 w0 hw0).2⟩
    · simp only [hww, if_false]
      exact h3 w0 hw0

theorem inv_update_artists (db : DB) (a a' : EntityRow) (hInv : Inv db)
    (hid : a'.id = a.id) (hnd : a'.genres.Nodup) :
    Inv { db with artists := db.artists.map (fun w => if w.id = a.id then a' else w) } := by
  obtain ⟨h1, h2, h3, h4⟩ := hInv
  refine ⟨h1, ?_, h3, ?_⟩
  · have heq : (db.artists.map (fun w => if w.id = a.id then a' else w)).map EntityRow.id
        = db.artists.map EntityRow.id := by
      rw [List.map_map]
      apply List.map_congr_left
      intro w hw
      by_cases hww : w.id = a.id
      · simp [Function.comp, hww, hid]
      · simp [Function.comp, hww]
    rw [show ({ db with artists := db.artists.map (fun w => if w.id = a.id then a' else w) } : DB).artists
      = db.artists.map (fun w => if w.id = a.id then a' else w) from rfl, heq]
    exact h2
  · intro w hw
    rcases List.mem_map.mp hw with ⟨w0, hw0, rfl⟩
    by_cases hww : w0.id = a.id
    · simp only [hww, if_true]
      exact ⟨hnd, by rw [hid, ← hww]; exact (h4 w0 hw0).2⟩
    · simp only [hww, if_false]
      exact h4 w0 hw0

theorem inv_insert_venue (db : DB) (r : EntityRow) (hInv : Inv db)
    (hid : r.id = db.nextVenueId) (hnd : r.genres.Nodup) :
    Inv { db with venues := db.venues ++ [r], nextVenueId := db.nextVenueId + 1 } := by
  obtain ⟨h1, h2, h3, h4⟩ := hInv
  refine ⟨?_, h2, ?_, fun a ha => ⟨(h4 a ha).1, (h4 a ha).2⟩⟩
  · rw [show ({ db with venues := db.venues ++ [r], nextVenueId := db.nextVenueId + 1 } : DB).venues
      = db.venues ++ [r] from rfl, List.map_append]
    refine List.Nodup.append h1 (by simp) ?_
    intro x hx
    simp only [List.map_cons, List.map_nil, List.mem_singleton]
    rcases List.mem_map.mp hx with ⟨v, hv, rfl⟩
    rw [hid]
    exact Nat.ne_of_lt (h3 v hv).2
  · intro v hv
    rcases List.mem_append.mp hv with hv | hv
    · exact ⟨(h3 v hv).1, Nat.lt_succ_of_lt (h3 v hv).2⟩
    · rcases List.mem_singleton.mp hv with rfl
      exact ⟨hnd, by rw [hid]; exact Nat.lt_succ_self _⟩

theorem inv_insert_artist (db : DB) (r : EntityRow) (hInv : Inv db)
    (hid : r.id = db.nextArtistId) (hnd : r.genres.Nodup) :
    Inv { db with artists := db.artists ++ [r], nextArtistId := db.nextArtistId + 1 } := by
  obtain ⟨h1, h2, h3, h4⟩ := hInv
  refine ⟨h1, ?_, fun v hv => ⟨(h3 v hv).1, (h3 v hv).2⟩, ?_⟩
  · rw [show ({ db with artists := db.artists ++ [r], nextArtistId := db.nextArtistId + 1 } : DB).artists
      = db.artists ++ [r] from rfl, List.map_append]
    refine List.Nodup.append h2 (by simp) ?_
    intro x hx
    simp only [List.map_cons, List.map_nil, List.mem_singleton]
    rcases List.mem_map.mp hx with ⟨a, ha, rfl⟩
    rw [hid]
    exact Nat.ne_of_lt (h4 a ha).2
  · intro a ha
    rcases List.mem_append.mp ha with ha | ha
    · exact ⟨(h4 a ha).1, Nat.lt_succ_of_lt (h4 a ha).2⟩
    · rcases List.mem_singleton.mp ha with rfl
      exact ⟨hnd, by rw [hid]; exact Nat.lt_succ_self _⟩

theorem inv_filter_venues (db : DB) (p : EntityRow → Bool) (hInv : Inv db) :
    Inv { db with venues := db.venues.filter p } := by
  obtain ⟨h1, h2, h3, h4⟩ := hInv
  exact ⟨((db.venues.filter_sublist).map EntityRow.id).nodup h1, h2,
    fun v hv => h3 v (List.mem_of_mem_filter hv), h4⟩

theorem inv_create_venue (db : DB) (f : VenueForm) (valid : Bool) (h : Inv db) :
    Inv ((create_venue_submission db f valid).1) := by
  cases valid with
  | false => exact h
  | true =>
    rcases hfound : db.venues.find? (fun v =>
        colEqStr v "name" (pyTitle f.name) && colEqStr v "city" (pyTitle f.city) &&
        colEqStr v "state" f.state) with _ | v
    · rcases hatt : attachGenres db.genres
          ⟨db.nextVenueId, populate_model
            (VenueForm.dataDict { f with name := pyTitle f.name, city := pyTitle f.city })
            newVenueAttrs, []⟩ f.genres with _ | r
      · simp only [create_venue_submission, if_true, hfound, hatt]
        exact h
      · simp only [create_venue_submission, if_true, hfound, hatt]
        obtain ⟨hid, -, -⟩ := attachGenres_some_spec _ _ _ _ hatt
        exact inv_insert_venue db _ h
          (by rw [applyInsertDefault_id, hid])
          (by rw [applyInsertDefault_genres]
              exact attachGenres_nodup _ _ _ _ hatt List.nodup_nil)
    · rcases hatt : attachGenres db.genres
          { v with attrs := (populate_model
            (VenueForm.dataDict { f with name := pyTitle f.name, city := pyTitle f.city })
            v.attrs) } f.genres with _ | v'
      · simp only [create_venue_submission, if_true, hfound, hatt]
        exact h
      · simp only [create_venue_submission, if_true, hfound, hatt]
        obtain ⟨hid, -, -⟩ := attachGenres_some_spec _ _ _ _ hatt
        have hmem := List.mem_of_find?_eq_some hfound
        exact inv_update_venues db v v' h hid
          (attachGenres_nodup _ _ _ _ hatt (h.2.2.1 v hmem).1)

theorem inv_create_artist (db : DB) (f : ArtistForm) (valid : Bool) (h : Inv db) :
    Inv ((create_artist_submission db f valid).1) := by
  cases valid with
  | false => exact h
  | true =>
    rcases hfound : db.artists.find? (fun a =>
        colEqStr a "name" (pyTitle f.name)) with _ | a
    · rcases hatt : attachGenres db.genres
          ⟨db.nextArtistId, populate_model
            (ArtistForm.dataDict { f with name := pyTitle f.name })
            newArtistAttrs, []⟩ f.genres with _ | r
      · simp only [create_artist_submission, if_true, hfound, hatt]
        exact h
      · simp only [create_artist_submission, if_true, hfound, hatt]
        obtain ⟨hid, -, -⟩ := attachGenres_some_spec _ _ _ _ hatt
        exact inv_insert_artist db _ h
          (by rw [applyInsertDefault_id, hid])
          (by rw [applyInsertDefault_genres]
              exact attachGenres_nodup _ _ _ _ hatt List.nodup_nil)
    · rcases hatt : attachGenres db.genres
          { a with attrs := (populate_model
            (ArtistForm.dataDict { f with name := pyTitle f.name })
            a.attrs) } f.genres with _ | a'
      · simp only [create_artist_submission, if_true, hfound, hatt]
        exact h
      · simp only [create_artist_submission, if_true, hfound, hatt]
        obtain ⟨hid, -, -⟩ := attachGenres_some_spec _ _ _ _ hatt
        have hmem := List.mem_of_find?_eq_some hfound
        exact inv_update_artists db a a' h hid
          (attachGenres_nodup _ _ _ _ hatt (h.2.2.2 a hmem).1)

theorem inv_edit_venue (db : DB) (vid : Nat) (f : VenueForm) (valid : Bool) (h : Inv db) :
    Inv ((edit_venue_submission db vid f valid).1) := by
  cases valid with
  | false => exact h
  | true =>
    rcases hfound : db.venues.find? (fun v => v.id = vid) with _ | v
    · simp only [edit_venue_submission, if_true, hfound]
      exact h
    · rcases hatt : attachGenres db.genres
          { v with attrs := populate_model f.dataDict v.attrs } f.genres with _ | v'
      · simp only [edit_venue_submission, if_true, hfound, hatt]
        exact h
      · simp only [edit_venue_submission, if_true, hfound, hatt]
        obtain ⟨hid, -, -⟩ := attachGenres_some_spec _ _ _ _ hatt
        have hmem := List.mem_of_find?_eq_some hfound
        exact inv_update_venues db v v' h hid
          (attachGenres_nodup _ _ _ _ hatt (h.2.2.1 v hmem).1)

theorem inv_edit_artist (db : DB) (aid : Nat) (f : ArtistForm) (valid : Bool) (h : Inv db) :
    Inv ((edit_artist_submission db aid f valid).1) := by
  cases valid with
  | false => exact h
  | true =>
    rcases hfound : db.artists.find? (fun a => a.id = aid) with _ | a
    · simp only [edit_artist_submission, if_true, hfound]
      exact h
    · rcases hatt : attachGenres db.genres
          { a with attrs := populate_model f.dataDict a.attrs } f.genres with _ | a'
      · simp only [edit_artist_submission, if_true, hfound, hatt]
        exact h
      · simp only [edit_artist_submission, if_true, hfound, hatt]
        obtain ⟨hid, -, -⟩ := attachGenres_some_spec _ _ _ _ hatt
        have hmem := List.mem_of_find?_eq_some hfound
        exact inv_update_artists db a a' h hid
          (attachGenres_nodup _ _ _ _ hatt (h.2.2.2 a hmem).1)

theorem inv_delete_venue (db : DB) (vid : Nat) (h : Inv db) :
    Inv ((delete_venue db vid).1) := by
  rcases hfound : db.venues.find? (fun v => v.id = vid) with _ | v
  · simp only [delete_venue, hfound]
    exact h
  · by_cases hsh : db.shows.any (fun s => s.venue_id = v.id)
    · simp only [delete_venue, hfound, hsh, if_true]
      exact h
    · rcases hname : attrStr v "name" with _ | n <;>
        · simp only [delete_venue, hfound, hsh, if_false, hname]
          exact inv_filter_venues db _ h

theorem inv_create_show (db : DB) (f : ShowForm) (valid : Bool) (h : Inv db) :
    Inv ((create_show_submission db f valid).1) := by
  cases valid with
  | false => exact h
  | true =>
    rcases hv : db.venues.find? (fun v => v.id = f.venue_id) with _ | v <;>
      rcases ha : db.artists.find? (fun a => a.id = f.artist_id) with _ | a <;>
        simp only [create_show_submission, if_true, hv, ha]
    · exact h
    · exact h
    · exact h
    · by_cases hdup : db.shows.any (fun s => s.venue_id = v.id ∧ s.artist_id = a.id)
      · simp only [hdup, if_true]
        exact h
      · simp only [hdup, if_false]
        exact h

theorem inv_runOp (db : DB) (op : Op) (h : Inv db) : Inv (runOp db op) := by
  cases op with
  | createVenue f valid => exact inv_create_venue db f valid h
  | createArtist f valid => exact inv_create_artist db f valid h
  | editVenue vid f valid => exact inv_edit_venue db vid f valid h
  | editArtist aid f valid => exact inv_edit_artist db aid f valid h
  | deleteVenue vid => exact inv_delete_venue db vid h
  | createShow f valid => exact inv_create_show db f valid h

theorem inv_runOps (ops : List Op) : ∀ (db : DB), Inv db → Inv (runOps db ops) := by
  induction ops with
  | nil => intro db h; exact h
  | cons op t ih =>
    intro db h
    exact ih _ (inv_runOp db op h)

theorem venueGenrePairs_nodup (db : DB) (h : Inv db) : (venueGenrePairs db).Nodup := by
  obtain ⟨h1, -, h3, -⟩ := h
  rw [venueGenrePairs, List.nodup_flatMap]
  constructor
  · intro v hv
    exact ((h3 v hv).1).map (fun a b hab => ((Prod.mk.injEq _ _ _ _).mp hab).2)
  · have hp : db.venues.Pairwise (fun a b => a.id ≠ b.id) := List.pairwise_map.mp h1
    refine hp.imp ?_
    intro a b hab x hxa hxb
    rcases List.mem_map.mp hxa with ⟨g1, -, rfl⟩
    rcases List.mem_map.mp hxb with ⟨g2, -, hx⟩
    exact hab ((Prod.mk.injEq _ _ _ _).mp hx.symm).1

theorem artistGenrePairs_nodup (db : DB) (h : Inv db) : (artistGenrePairs db).Nodup := by
  obtain ⟨-, h2, -, h4⟩ := h
  rw [artistGenrePairs, List.nodup_flatMap]
  constructor
  · intro a ha
    exact ((h4 a ha).1).map (fun x y hxy => ((Prod.mk.injEq _ _ _ _).mp hxy).2)
  · have hp : db.artists.Pairwise (fun x y => x.id ≠ y.id) := List.pairwise_map.mp h2
    refine hp.imp ?_
    intro x y hxy p hpx hpy
    rcases List.mem_map.mp hpx with ⟨g1, -, rfl⟩
    rcases List.mem_map.mp hpy with ⟨g2, -, hp'⟩
    exact hxy ((Prod.mk.injEq _ _ _ _).mp hp'.symm).1

theorem countP_le_one_of_nodup {α : Type} [DecidableEq α] (a : α) :
    ∀ (l : List α), l.Nodup → l.countP (fun x => decide (x = a)) ≤ 1 := by
  intro l
  induction l with
  | nil => intro h; simp
  | cons x t ih =>
    intro h
    obtain ⟨hx, ht⟩ := List.nodup_cons.mp h
    rw [List.countP_cons]
    by_cases hxa : x = a
    · subst hxa
      have hz : t.countP (fun y => decide (y = x)) = 0 := by
        rw [List.countP_eq_zero]
        intro y hy
        simp only [decide_eq_true_eq]
        intro hyx
        exact hx (hyx ▸ hy)
      simp [hz]
    · simpa [hxa] using ih ht

/-- C6: after any sequence of create/edit/delete submissions starting from
a well-formed store, every `(venue_id, genre_id)` and
`(artist_id, genre_id)` pair has at most one persisted association row —
the handlers append genres with no application-level dedup, but the
association tables' composite primary key (the commit check of
`attachGenres`) rejects duplicates, so resubmitting an already-attached
genre never yields a second association row. -/
theorem genre_association_at_most_one (db : DB) (ops : List Op) (h : Inv db) :
    Inv (runOps db ops) ∧
    (∀ p : Nat × Nat,
      (venueGenrePairs (runOps db ops)).countP (fun q => decide (q = p)) ≤ 1) ∧
    (∀ p : Nat × Nat,
      (artistGenrePairs (runOps db ops)).countP (fun q => decide (q = p)) ≤ 1) := by
  have hInv := inv_runOps ops db h
  exact ⟨hInv,
    fun p => countP_le_one_of_nodup p _ (venueGenrePairs_nodup _ hInv),
    fun p => countP_le_one_of_nodup p _ (artistGenrePairs_nodup _ hInv)⟩

/-- C6 witness: submitting the same artist-create form (genre id 2) twice
against the freshly migrated store leaves at most one `(artist 1, genre 2)`
association row. -/
theorem genre_association_at_most_one_applied :
    (artistGenrePairs (runOps seededDB
      [.createArtist sampleArtistForm true, .createArtist sampleArtistForm true])).countP
        (fun q => decide (q = (1, 2))) ≤ 1 :=
  (genre_association_at_most_one seededDB
    [.createArtist sampleArtistForm true, .createArtist sampleArtistForm true]
    (by decide)).2.2 (1, 2)

/-! ## C3 — create-or-update by natural key -/

theorem lookup_dataDict_state (g : VenueForm) :
    g.dataDict.lookup "state" = some (some (.str g.state)) := by
  simp [VenueForm.dataDict, List.lookup_cons]

/-- Lookups on any row populated from a venue form's dictionary. -/
theorem populated_dataDict_lookups (g : VenueForm) (m : AttrMap)
    (hwf : (g.dataDict.map Prod.fst).Nodup)
    (hname : (m.lookup "name").isSome) (hcity : (m.lookup "city").isSome)
    (hstate : (m.lookup "state").isSome) :
    (populate_model g.dataDict m).lookup "name" = some (some (.str g.name)) ∧
    (populate_model g.dataDict m).lookup "city" = some (some (.str g.city)) ∧
    (populate_model g.dataDict m).lookup "state" = some (some (.str g.state)) := by
  obtain ⟨x1, hx1⟩ := Option.isSome_iff_exists.mp hname
  obtain ⟨x2, hx2⟩ := Option.isSome_iff_exists.mp hcity
  obtain ⟨x3, hx3⟩ := Option.isSome_iff_exists.mp hstate
  refine ⟨?_, ?_, ?_⟩
  · rw [populate_model_lookup_eq _ _ _ hwf, lookup_dataDict_name, hx1]
  · rw [populate_model_lookup_eq _ _ _ hwf, lookup_dataDict_city, hx2]
  · rw [populate_model_lookup_eq _ _ _ hwf, lookup_dataDict_state, hx3]

theorem attrStr_some_lookup (r : EntityRow) (k : String) (s : String)
    (h : attrStr r k = some s) : r.attrs.lookup k = some (some (.str s)) := by
  unfold attrStr at h
  rcases hl : r.attrs.lookup k with _ | v
  · rw [hl] at h; cases h
  · rcases v with _ | v
    · rw [hl] at h; cases h
    · rcases v with s' | b | dt
      · rw [hl] at h
        simp only at h
        cases h
        rfl
      · rw [hl] at h; cases h
      · rw [hl] at h; cases h

theorem colEqStr_of (r : EntityRow) (k : String) (s : String)
    (h : attrStr r k = some s) : colEqStr r k s = true := by
  simp [colEqStr, h]

/-- Appending a genre that the row already carries makes the commit
abort: the association insert would duplicate an existing primary key. -/
theorem attachGenres_dup_none (gt : List GenreRow) (row : EntityRow) (gids : List Nat)
    (hdup : ∃ g ∈ gids, g ∈ row.genres) :
    attachGenres gt row gids = none := by
  obtain ⟨g, hg, hgrow⟩ := hdup
  unfold attachGenres
  by_cases h1 : ((gids.map (fun gid => gt.find? (fun x => x.id = gid))).all (·.isSome)) = true
  · simp only [h1, if_true]
    have hmem : g ∈ (gids.map (fun gid => gt.find? (fun x => x.id = gid))).filterMap
        (fun o => o.map (·.id)) := by
      have hsome : ((gt.find? (fun x => x.id = g)).isSome) = true := by
        rw [List.all_eq_true] at h1
        exact h1 _ (List.mem_map_of_mem _ hg)
      obtain ⟨gr, hgr⟩ := Option.isSome_iff_exists.mp hsome
      have hid := @List.find?_some GenreRow (fun x => decide (x.id = g)) gr gt hgr
      simp only [decide_eq_true_eq] at hid
      refine List.mem_filterMap.mpr ⟨gt.find? (fun x => x.id = g), List.mem_map_of_mem _ hg, ?_⟩
      rw [hgr]
      simp [hid]
    rw [if_neg ?_]
    rintro ⟨-, hall⟩
    exact (hall g hmem) hgrow
  · rw [if_neg h1]

theorem create_venue_fresh_eq (db : DB) (vf : VenueForm)
    (hnone : db.venues.find? (fun v => colEqStr v "name" (pyTitle vf.name) &&
      colEqStr v "city" (pyTitle vf.city) && colEqStr v "state" vf.state) = none)
    (hres : ∀ g ∈ vf.genres, db.genres.find? (fun x => x.id = g) ≠ none)
    (hnd : vf.genres.Nodup) :
    create_venue_submission db vf true =
      ({ db with
          venues := db.venues ++ [applyInsertDefault
            ⟨db.nextVenueId, (populate_model (VenueForm.dataDict
              { vf with name := pyTitle vf.name, city := pyTitle vf.city }) newVenueAttrs),
              [] ++ vf.genres⟩ "seeking_talent"]
          nextVenueId := db.nextVenueId + 1 },
       .home (some ("Venue " ++ pyTitle vf.name ++ " was successfully listed!"))) := by
  have hatt := attachGenres_resolves db.genres
    ⟨db.nextVenueId, (populate_model (VenueForm.dataDict
      { vf with name := pyTitle vf.name, city := pyTitle vf.city }) newVenueAttrs), []⟩
    vf.genres hres hnd (by simp)
  simp only [create_venue_submission, if_true, hnone, hatt]

theorem create_venue_update_eq (db : DB) (vf : VenueForm) (v v' : EntityRow)
    (hfound : db.venues.find? (fun w => colEqStr w "name" (pyTitle vf.name) &&
      colEqStr w "city" (pyTitle vf.city) && colEqStr w "state" vf.state) = some v)
    (hatt : attachGenres db.genres
      { v with attrs := (populate_model (VenueForm.dataDict
        { vf with name := pyTitle vf.name, city := pyTitle vf.city }) v.attrs) }
      vf.genres = some v') :
    create_venue_submission db vf true =
      ({ db with venues := db.venues.map (fun w => if w.id = v.id then v' else w) },
       .home (some ("Venue " ++ pyTitle vf.name ++ " was successfully listed!"))) := by
  simp only [create_venue_submission, if_true, hfound, hatt]

theorem create_venue_update_err (db : DB) (vf : VenueForm) (v : EntityRow)
    (hfound : db.venues.find? (fun w => colEqStr w "name" (pyTitle vf.name) &&
      colEqStr w "city" (pyTitle vf.city) && colEqStr w "state" vf.state) = some v)
    (hatt : attachGenres db.genres
      { v with attrs := (populate_model (VenueForm.dataDict
        { vf with name := pyTitle vf.name, city := pyTitle vf.city }) v.attrs) }
      vf.genres = none) :
    create_venue_submission db vf true = (db, .serverError) := by
  simp only [create_venue_submission, if_true, hfound, hatt]

theorem create_artist_update_eq (db : DB) (af : ArtistForm) (a a' : EntityRow)
    (hfound : db.artists.find? (fun w => colEqStr w "name" (pyTitle af.name)) = some a)
    (hatt : attachGenres db.genres
      { a with attrs := (populate_model (ArtistForm.dataDict
        { af with name := pyTitle af.name }) a.attrs) } af.genres = some a') :
    create_artist_submission db af true =
      ({ db with artists := db.artists.map (fun w => if w.id = a.id then a' else w) },
       .home (some ("Artist " ++ pyTitle af.name ++ " was successfully listed!"))) := by
  simp only [create_artist_submission, if_true, hfound, hatt]

theorem create_artist_update_err (db : DB) (af : ArtistForm) (a : EntityRow)
    (hfound : db.artists.find? (fun w => colEqStr w "name" (pyTitle af.name)) = some a)
    (hatt : attachGenres db.genres
      { a with attrs := (populate_model (ArtistForm.dataDict
        { af with name := pyTitle af.name }) a.attrs) } af.genres = none) :
    create_artist_submission db af true = (db, .serverError) := by
  simp only [create_artist_submission, if_true, hfound, hatt]

theorem attrStr_of_lookup (r : EntityRow) (k : String) (s : String)
    (h : r.attrs.lookup k = some (some (.str s))) : attrStr r k = some s := by
  unfold attrStr
  rw [h]

/-- C3 amended: on a valid venue-create whose title-cased natural key
(name, city, state) matches an existing row, no new row is inserted; if
the submitted genre ids resolve, are distinct and none is already
attached, the submission updates that row in place (fields populated per
the population rule, genres appended); if a submitted genre is already
attached, the commit violates the association primary key and the store
is left entirely unchanged (server error).  The artist handler behaves
symmetrically with name as the key.  Submitting the same venue form twice
from a fresh key therefore leaves exactly one row with that key — the
second submission updates it or fails, but never inserts. -/
theorem create_natural_key_upsert (db : DB) (vf : VenueForm) (af : ArtistForm)
    (hwfv : (vf.dataDict.map Prod.fst).Nodup) :
    (∀ v, db.venues.find? (fun w => colEqStr w "name" (pyTitle vf.name) &&
        colEqStr w "city" (pyTitle vf.city) && colEqStr w "state" vf.state) = some v →
      (create_venue_submission db vf true).1.venues.length = db.venues.length) ∧
    (∀ v, db.venues.find? (fun w => colEqStr w "name" (pyTitle vf.name) &&
        colEqStr w "city" (pyTitle vf.city) && colEqStr w "state" vf.state) = some v →
      vf.genres.Nodup →
      (∀ g ∈ vf.genres, db.genres.find? (fun x => x.id = g) ≠ none) →
      (∀ g ∈ vf.genres, g ∉ v.genres) →
      (create_venue_submission db vf true).1.venues =
        db.venues.map (fun w => if w.id = v.id then
          { v with
              attrs := (populate_model (VenueForm.dataDict
                { vf with name := pyTitle vf.name, city := pyTitle vf.city }) v.attrs),
              genres := v.genres ++ vf.genres }
          else w)) ∧
    (∀ v, db.venues.find? (fun w => colEqStr w "name" (pyTitle vf.name) &&
        colEqStr w "city" (pyTitle vf.city) && colEqStr w "state" vf.state) = some v →
      (∃ g ∈ vf.genres, g ∈ v.genres) →
      create_venue_submission db vf true = (db, .serverError)) ∧
    (∀ a, db.artists.find? (fun w => colEqStr w "name" (pyTitle af.name)) = some a →
      (create_artist_submission db af true).1.artists.length = db.artists.length) ∧
    (∀ a, db.artists.find? (fun w => colEqStr w "name" (pyTitle af.name)) = some a →
      af.genres.Nodup →
      (∀ g ∈ af.genres, db.genres.find? (fun x => x.id = g) ≠ none) →
      (∀ g ∈ af.genres, g ∉ a.genres) →
      (create_artist_submission db af true).1.artists =
        db.artists.map (fun w => if w.id = a.id then
          { a with
              attrs := (populate_model (ArtistForm.dataDict
                { af with name := pyTitle af.name }) a.attrs),
              genres := a.genres ++ af.genres }
          else w)) ∧
    (db.venues.find? (fun w => colEqStr w "name" (pyTitle vf.name) &&
        colEqStr w "city" (pyTitle vf.city) && colEqStr w "state" vf.state) = none →
      vf.genres.Nodup →
      (∀ g ∈ vf.genres, db.genres.find? (fun x => x.id = g) ≠ none) →
      (∀ w ∈ db.venues, w.id ≠ db.nextVenueId) →
      (create_venue_submission (create_venue_submission db vf true).1 vf true).1.venues.countP
          (fun w => colEqStr w "name" (pyTitle vf.name) && colEqStr w "city" (pyTitle vf.city) &&
            colEqStr w "state" vf.state) = 1 ∧
      (create_venue_submission (create_venue_submission db vf true).1 vf true).1.venues.length
          = db.venues.length + 1) := by
  have hwfv' : ((({ vf with name := pyTitle vf.name, city := pyTitle vf.city } :
      VenueForm)).dataDict.map Prod.fst).Nodup := hwfv
  refine ⟨?_, ?_, ?_, ?_, ?_, ?_⟩
  · intro v hfound
    rcases hatt : attachGenres db.genres
        { v with attrs := (populate_model (VenueForm.dataDict
          { vf with name := pyTitle vf.name, city := pyTitle vf.city }) v.attrs) }
        vf.genres with _ | v'
    · rw [create_venue_update_err db vf v hfound hatt]
    · rw [create_venue_update_eq db vf v v' hfound hatt]
      exact List.length_map _ _
  · intro v hfound hnd hres hdis
    have hatt := attachGenres_resolves db.genres
      { v with attrs := (populate_model (VenueForm.dataDict
        { vf with name := pyTitle vf.name, city := pyTitle vf.city }) v.attrs) }
      vf.genres hres hnd hdis
    rw [create_venue_update_eq db vf v _ hfound hatt]
  · intro v hfound hdup
    exact create_venue_update_err db vf v hfound
      (attachGenres_dup_none db.genres _ vf.genres hdup)
  · intro a hfound
    rcases hatt : attachGenres db.genres
        { a with attrs := (populate_model (ArtistForm.dataDict
          { af with name := pyTitle af.name }) a.attrs) } af.genres with _ | a'
    · rw [create_artist_update_err db af a hfound hatt]
    · rw [create_artist_update_eq db af a a' hfound hatt]
      exact List.length_map _ _
  · intro a hfound hnd hres hdis
    have hatt := attachGenres_resolves db.genres
      { a with attrs := (populate_model (ArtistForm.dataDict
        { af with name := pyTitle af.name }) a.attrs) } af.genres hres hnd hdis
    rw [create_artist_update_eq db af a _ hfound hatt]
  · intro hnone hnd hres hid
    have h1 := create_venue_fresh_eq db vf hnone hres hnd
    set rowF : EntityRow := applyInsertDefault ⟨db.nextVenueId,
        (populate_model (VenueForm.dataDict
          { vf with name := pyTitle vf.name, city := pyTitle vf.city }) newVenueAttrs),
        [] ++ vf.genres⟩ "seeking_talent" with hrowF
    have hdb1 : (create_venue_submission db vf true).1 =
        { db with
          venues := db.venues ++ [rowF]
          nextVenueId := db.nextVenueId + 1 } := by
      rw [h1]
    have hlk := populated_dataDict_lookups
      ({ vf with name := pyTitle vf.name, city := pyTitle vf.city }) newVenueAttrs hwfv'
      (by decide) (by decide) (by decide)
    have hnm : attrStr rowF "name" = some (pyTitle vf.name) := by
      rw [hrowF, attrStr_applyInsertDefault_ne _ _ _ (by decide)]
      exact attrStr_of_lookup _ _ _ hlk.1
    have hct : attrStr rowF "city" = some (pyTitle vf.city) := by
      rw [hrowF, attrStr_applyInsertDefault_ne _ _ _ (by decide)]
      exact attrStr_of_lookup _ _ _ hlk.2.1
    have hst : attrStr rowF "state" = some vf.state := by
      rw [hrowF, attrStr_applyInsertDefault_ne _ _ _ (by decide)]
      exact attrStr_of_lookup _ _ _ hlk.2.2
    have hpredF : (colEqStr rowF "name" (pyTitle vf.name) &&
        colEqStr rowF "city" (pyTitle vf.city) && colEqStr rowF "state" vf.state) = true := by
      rw [colEqStr_of _ _ _ hnm, colEqStr_of _ _ _ hct, colEqStr_of _ _ _ hst]
      rfl
    have hcount0 : db.venues.countP (fun w => colEqStr w "name" (pyTitle vf.name) &&
        colEqStr w "city" (pyTitle vf.city) && colEqStr w "state" vf.state) = 0 :=
      List.countP_eq_zero.mpr (List.find?_eq_none.mp hnone)
    have hfind1 : (db.venues ++ [rowF]).find? (fun w => colEqStr w "name" (pyTitle vf.name) &&
        colEqStr w "city" (pyTitle vf.city) && colEqStr w "state" vf.state) = some rowF := by
      rw [List.find?_append, hnone]
      simp [List.find?, hpredF]
    have hfind1' : ({ db with
        venues := db.venues ++ [rowF]
        nextVenueId := db.nextVenueId + 1 } : DB).venues.find?
          (fun w => colEqStr w "name" (pyTitle vf.name) &&
            colEqStr w "city" (pyTitle vf.city) && colEqStr w "state" vf.state) = some rowF :=
      hfind1
    have hidF : rowF.id = db.nextVenueId := by
      rw [hrowF, applyInsertDefault_id]
    have hgF : rowF.genres = vf.genres := by
      rw [hrowF, applyInsertDefault_genres]
      simp
    rw [hdb1]
    by_cases hgE : vf.genres = []
    · have hatt2 := attachGenres_resolves db.genres
        { rowF with attrs := (populate_model (VenueForm.dataDict
          { vf with name := pyTitle vf.name, city := pyTitle vf.city }) rowF.attrs) }
        vf.genres (by rw [hgE]; intro g hg; cases hg) (by rw [hgE]; exact List.nodup_nil)
        (by rw [hgE]; intro g hg; cases hg)
      have h2 := create_venue_update_eq
        { db with
          venues := db.venues ++ [rowF]
          nextVenueId := db.nextVenueId + 1 }
        vf rowF _ hfind1' hatt2
      have hdb2v : (create_venue_submission
          { db with
          venues := db.venues ++ [rowF]
          nextVenueId := db.nextVenueId + 1 }
          vf true).1.venues =
          (db.venues ++ [rowF]).map (fun w => if w.id = rowF.id then
            { rowF with
                attrs := (populate_model (VenueForm.dataDict
                  { vf with name := pyTitle vf.name, city := pyTitle vf.city }) rowF.attrs),
                genres := rowF.genres ++ vf.genres }
            else w) := by
        rw [h2]
      have hlk2 := populated_dataDict_lookups
        ({ vf with name := pyTitle vf.name, city := pyTitle vf.city }) rowF.attrs hwfv'
        (by rw [attrStr_some_lookup _ _ _ hnm]; rfl)
        (by rw [attrStr_some_lookup _ _ _ hct]; rfl)
        (by rw [attrStr_some_lookup _ _ _ hst]; rfl)
      have hpredV : (colEqStr
          ({ rowF with
              attrs := (populate_model (VenueForm.dataDict
                { vf with name := pyTitle vf.name, city := pyTitle vf.city }) rowF.attrs),
              genres := rowF.genres ++ vf.genres } : EntityRow) "name" (pyTitle vf.name) &&
          colEqStr { rowF with
              attrs := (populate_model (VenueForm.dataDict
                { vf with name := pyTitle vf.name, city := pyTitle vf.city }) rowF.attrs),
              genres := rowF.genres ++ vf.genres } "city" (pyTitle vf.city) &&
          colEqStr { rowF with
              attrs := (populate_model (VenueForm.dataDict
                { vf with name := pyTitle vf.name, city := pyTitle vf.city }) rowF.attrs),
              genres := rowF.genres ++ vf.genres } "state" vf.state) = true := by
        rw [colEqStr_of _ _ _ (attrStr_of_lookup _ _ _ hlk2.1),
          colEqStr_of _ _ _ (attrStr_of_lookup _ _ _ hlk2.2.1),
          colEqStr_of _ _ _ (attrStr_of_lookup _ _ _ hlk2.2.2)]
        rfl
      have hmapeq : (db.venues ++ [rowF]).map (fun w => if w.id = rowF.id then
          { rowF with
              attrs := (populate_model (VenueForm.dataDict
                { vf with name := pyTitle vf.name, city := pyTitle vf.city }) rowF.attrs),
              genres := rowF.genres ++ vf.genres }
          else w) =
          db.venues ++ [{ rowF with
              attrs := (populate_model (VenueForm.dataDict
                { vf with name := pyTitle vf.name, city := pyTitle vf.city }) rowF.attrs),
              genres := rowF.genres ++ vf.genres }] := by
        rw [List.map_append]
        congr 1
        · calc db.venues.map (fun w => if w.id = rowF.id then
              { rowF with
                  attrs := (populate_model (VenueForm.dataDict
                    { vf with name := pyTitle vf.name, city := pyTitle vf.city }) rowF.attrs),
                  genres := rowF.genres ++ vf.genres }
              else w) = db.venues.map id := by
                apply List.map_congr_left
                intro w hw
                have hne : w.id ≠ rowF.id := by
                  rw [hidF]
                  exact hid w hw
                simp [hne]
            _ = db.venues := List.map_id _
        · simp
      rw [hdb2v, hmapeq]
      constructor
      · rw [List.countP_append, hcount0]
        simp [List.countP_cons, hpredV]
      · simp
    · obtain ⟨g0, hg0⟩ := List.exists_mem_of_ne_nil vf.genres hgE
      have hdup : ∃ g ∈ vf.genres, g ∈
          ({ rowF with attrs := (populate_model (VenueForm.dataDict
            { vf with name := pyTitle vf.name, city := pyTitle vf.city }) rowF.attrs) } :
            EntityRow).genres := by
        refine ⟨g0, hg0, ?_⟩
        rw [show ({ rowF with attrs := (populate_model (VenueForm.dataDict
            { vf with name := pyTitle vf.name, city := pyTitle vf.city }) rowF.attrs) } :
            EntityRow).genres = rowF.genres from rfl, hgF]
        exact hg0
      have hatt2 := attachGenres_dup_none db.genres _ vf.genres hdup
      have h2 := create_venue_update_err
        { db with
          venues := db.venues ++ [rowF]
          nextVenueId := db.nextVenueId + 1 }
        vf rowF hfind1' hatt2
      have hdb2v : (create_venue_submission
          { db with
          venues := db.venues ++ [rowF]
          nextVenueId := db.nextVenueId + 1 }
          vf true).1.venues = db.venues ++ [rowF] := by
        rw [h2]
      rw [hdb2v]
      constructor
      · rw [List.countP_append, hcount0]
        simp [List.countP_cons, hpredF]
      · simp

/-- The store after creating "Jazz House" once from the migrated store. -/
def dbAfterFirstCreate : DB := (create_venue_submission seededDB sampleVenueForm true).1

/-- The same venue form resubmitted with a new phone number. -/
def venueFormPhone : VenueForm :=
  { sampleVenueForm with rest := [("phone", some (.str "555"))] }

/-- C3 counterexample: resubmitting the create form for an existing venue
(same title-cased name+city+state, same genre selection, new phone
number) does not overwrite the row and does not add genres: the appended
genre association collides with the composite primary key, the commit
aborts with a server error, and the stored phone stays unset.  (No second
row is created, but the claimed overwrite-and-accumulate behaviour does
not happen.) -/
theorem create_venue_resubmission_discards_update :
    create_venue_submission dbAfterFirstCreate venueFormPhone true =
      (dbAfterFirstCreate, .serverError) ∧
    (∀ v ∈ dbAfterFirstCreate.venues, attrStr v "phone" ≠ some "555") ∧
    dbAfterFirstCreate.venues.length = 1 := by
  exact ⟨by decide, by decide, by decide⟩

/-- C3 witness: creating "Jazz House" twice from the migrated store leaves
exactly one row with the title-cased natural key. -/
theorem create_natural_key_upsert_applied :
    (create_venue_submission (create_venue_submission seededDB sampleVenueForm true).1
      sampleVenueForm true).1.venues.countP
        (fun w => colEqStr w "name" (pyTitle sampleVenueForm.name) &&
          colEqStr w "city" (pyTitle sampleVenueForm.city) &&
          colEqStr w "state" sampleVenueForm.state) = 1 :=
  ((create_natural_key_upsert seededDB sampleVenueForm sampleArtistForm (by decide)).2.2.2.2.2
    (by decide) (by decide) (by decide) (by decide)).1

end Fyyur